import Mathlib

/-!
Verification development for the tokn-web backend (Flask routes and the
DSPy / MLflow-GEPA worker scripts).  The Python sources are embedded
shallowly: JSON values become an inductive `JVal`, Python exceptions an
inductive `PyExc`, and each route handler / worker entry point becomes a
total Lean function parameterised by an environment record describing the
outcomes of calls into external libraries (dspy, mlflow, provider SDKs).
-/

/-- An exact decimal number `mant / 10 ^ exp`, the value space of the JSON
number literals this code handles (kernel-reducible, unlike `ℚ`). -/
structure DecNum where
  mant : Int
  exp : Nat
deriving Repr

instance (n : Nat) : OfNat DecNum n := ⟨⟨n, 0⟩⟩

instance : OfScientific DecNum :=
  ⟨fun m b e => if b then ⟨m, e⟩ else ⟨(m : Int) * 10 ^ e, 0⟩⟩

instance : ToString DecNum :=
  ⟨fun d => if d.exp = 0 then toString d.mant else toString d.mant ++ "e-" ++ toString d.exp⟩

/-- Value equality of decimal numbers (Python `==` on floats). -/
def DecNum.beqVal (a b : DecNum) : Bool :=
  a.mant * 10 ^ b.exp == b.mant * 10 ^ a.exp

/-- A JSON value, as produced by `request.get_json()` / `json.loads`. -/
inductive JVal where
  | null
  | bool (b : Bool)
  | num (n : DecNum)
  | str (s : String)
  | arr (elems : List JVal)
  | obj (fields : List (String × JVal))

/-- Python exceptions distinguished by the embedded code's `except` clauses. -/
inductive PyExc where
  | importError (msg : String)
  | valueError (msg : String)
  | keyError (k : String)
  | typeError (msg : String)
  | runtimeError (msg : String)
  | attributeError (msg : String)
deriving Repr, DecidableEq

mutual

/-- Structural equality on JSON values (Python `==`). -/
def JVal.beq : JVal → JVal → Bool
  | .null, .null => true
  | .bool a, .bool b => a == b
  | .num a, .num b => a.beqVal b
  | .str a, .str b => a == b
  | .arr xs, .arr ys => JVal.beqList xs ys
  | .obj xs, .obj ys => JVal.beqFields xs ys
  | _, _ => false

def JVal.beqList : List JVal → List JVal → Bool
  | [], [] => true
  | x :: xs, y :: ys => JVal.beq x y && JVal.beqList xs ys
  | _, _ => false

def JVal.beqFields : List (String × JVal) → List (String × JVal) → Bool
  | [], [] => true
  | (k, v) :: xs, (l, w) :: ys => k == l && JVal.beq v w && JVal.beqFields xs ys
  | _, _ => false

end

instance : BEq JVal := ⟨JVal.beq⟩

namespace JVal

/-- Key lookup in a JSON object; `none` for non-objects or absent keys. -/
def lookup : JVal → String → Option JVal
  | .obj fs, k => fs.lookup k
  | _, _ => none

/-- Python truthiness of a JSON value (`if not data:`). -/
def truthy : JVal → Bool
  | .null => false
  | .bool b => b
  | .num n => n.mant != 0
  | .str s => !s.isEmpty
  | .arr xs => !xs.isEmpty
  | .obj fs => !fs.isEmpty

end JVal

/-- Python `str(v)` for the JSON values that reach Python f-strings in this code. -/
def pyStrOf : JVal → String
  | .null => "None"
  | .bool true => "True"
  | .bool false => "False"
  | .num n => toString n
  | .str s => s
  | .arr _ => "[...]"
  | .obj _ => "\x7b...\x7d"

/-- Python `str(e)` for an exception, as interpolated into error messages. -/
def pyExcStr : PyExc → String
  | .importError m => m
  | .valueError m => m
  | .keyError k => "'" ++ k ++ "'"
  | .typeError m => m
  | .runtimeError m => m
  | .attributeError m => m

/-- Python `field in data`: key membership for dicts, element membership for lists,
substring test for strings, `TypeError` otherwise. -/
def pyContains (data : JVal) (field : String) : Except PyExc Bool :=
  match data with
  | .obj fs => .ok (fs.lookup field).isSome
  | .arr xs => .ok (xs.contains (.str field))
  | .str s => .ok ((s.splitOn field).length > 1)
  | _ => .error (.typeError "argument is not iterable")

/-- Python `data[k]` for a string key: value for dicts (`KeyError` when absent),
`TypeError` for everything else. -/
def pySubscript (v : JVal) (k : String) : Except PyExc JVal :=
  match v with
  | .obj fs =>
    match fs.lookup k with
    | some x => .ok x
    | none => .error (.keyError k)
  | _ => .error (.typeError "indices must be integers")

/-- Python `data.get(k, default)`: only dicts have `.get`; anything else raises
`AttributeError`. -/
def pyDictGet (v : JVal) (k : String) (default : JVal) : Except PyExc JVal :=
  match v with
  | .obj fs =>
    match fs.lookup k with
    | some x => .ok x
    | none => .ok default
  | _ => .error (.attributeError "object has no attribute get")

/-- Python `for x in v`: elements for lists, single-character strings for strings,
keys for dicts, `TypeError` otherwise. -/
def pyIter (v : JVal) : Except PyExc (List JVal) :=
  match v with
  | .arr xs => .ok xs
  | .str s => .ok (s.toList.map (fun c => .str (String.mk [c])))
  | .obj fs => .ok (fs.map (fun kv => .str kv.1))
  | _ => .error (.typeError "object is not iterable")

/-- Python `not config_json or not config_json.strip()`: the string is empty or
consists only of whitespace. -/
def pyStripIsEmpty (s : String) : Bool := s.toList.all Char.isWhitespace

/-- Python `s.strip()`: remove leading and trailing whitespace. -/
def pyStrip (s : String) : String :=
  String.mk (((s.toList.dropWhile Char.isWhitespace).reverse.dropWhile Char.isWhitespace).reverse)

/-- Python `len(v)`: sized containers only. -/
def pyLen (v : JVal) : Except PyExc Nat :=
  match v with
  | .arr xs => .ok xs.length
  | .str s => .ok s.length
  | .obj fs => .ok fs.length
  | _ => .error (.typeError "object has no len")

/-- Python `float(v)` on JSON values: numbers and booleans convert, strings raise
`ValueError` (non-numeric strings are the case this code can meet), other
shapes raise `TypeError`. -/
def pyFloat (v : JVal) : Except PyExc DecNum :=
  match v with
  | .num n => .ok n
  | .bool b => .ok (if b then 1 else 0)
  | .str _ => .error (.valueError "could not convert string to float")
  | _ => .error (.typeError "float argument must be a number")

/-- Python `int(v)` on JSON values, with the same conventions as `pyFloat`
(truncation toward zero on the non-negative values this code meets). -/
def pyInt (v : JVal) : Except PyExc Int :=
  match v with
  | .num n => .ok (n.mant / (10 : Int) ^ n.exp)
  | .bool b => .ok (if b then 1 else 0)
  | .str _ => .error (.valueError "invalid literal for int")
  | _ => .error (.typeError "int argument must be a number")

/-- Python `a * b` on JSON numbers (`TypeError` for non-numeric operands). -/
def pyMul (a b : JVal) : Except PyExc JVal :=
  match a, b with
  | .num x, .num y => .ok (.num ⟨x.mant * y.mant, x.exp + y.exp⟩)
  | _, _ => .error (.typeError "unsupported operand types for mul")

/-- Python `v[0]`: first element of a list (`TypeError` for non-sequences; the
empty-list case is always truthiness-guarded in this code). -/
def pyIndexZero (v : JVal) : Except PyExc JVal :=
  match v with
  | .arr (x :: _) => .ok x
  | .arr [] => .error (.valueError "list index out of range")
  | _ => .error (.typeError "object is not subscriptable")

/-! ## Worker protocol messages and external-library call events -/

/-- A line-delimited JSON message written by a worker to standard output. -/
inductive Msg where
  | progress (message : String)
  | success (payload : List (String × JVal))
  | error (message : String) (tb : Bool)

def Msg.isProgress : Msg → Bool
  | .progress _ => true
  | _ => false

def Msg.isSuccess : Msg → Bool
  | .success _ => true
  | _ => false

def Msg.isError : Msg → Bool
  | .error _ _ => true
  | _ => false

/-- Calls into the external optimization machinery (DSPy's `MIPROv2.compile`,
MLflow's prompt registry and `optimize_prompts`). -/
inductive OptCall where
  | registerPrompt
  | loadPrompt
  | optimizePrompts
  | miproCompile
deriving Repr, DecidableEq

/-! ## Provider client selector (`gepa_optimizer.get_model_client`) -/

/-- Outcomes of the provider SDK imports / constructor calls performed by
`get_model_client` on its native-client branches. -/
structure ClientEnv where
  openaiOk : Except PyExc Unit
  anthropicOk : Except PyExc Unit
  googleOk : Except PyExc Unit

/-- What `get_model_client` returns: a native client handle, or the deferred
LiteLLM routing descriptor built on its fallback branch. -/
inductive ClientInfo where
  | openaiClient
  | anthropicClient
  | googleClient
  | litellm (provider model apiKey apiBase : JVal)

def ClientInfo.isLitellm : ClientInfo → Bool
  | .litellm _ _ _ _ => true
  | _ => false

/-- Python `get_model_client(config)` (src/backend/gepa_custom/gepa_optimizer.py,
lines 44-102).  Reads provider/api_key/api_base with `.get`, dispatches on
the provider string, and for every provider outside the natively handled
set returns a LiteLLM routing descriptor — there is no error branch.
Environment-variable reads on the native branches are omitted: they do not
affect control flow. -/
def get_model_client (config : JVal) (env : ClientEnv) : Except PyExc ClientInfo := do
  let provider ← pyDictGet config "provider" (.str "ollama")
  let apiKey ← pyDictGet config "api_key" (.str "")
  let apiBase ← pyDictGet config "api_base" .null
  if provider == JVal.str "openai" then do
    let _ ← env.openaiOk
    pure .openaiClient
  else if provider == JVal.str "anthropic" then do
    let _ ← env.anthropicOk
    pure .anthropicClient
  else if provider == JVal.str "google" || provider == JVal.str "gemini" then do
    let _ ← env.googleOk
    pure .googleClient
  else do
    let model ← pyDictGet config "model" .null
    pure (.litellm provider model apiKey apiBase)

/-! ## MLflow GEPA result objects and `optimize_with_gepa` -/

/-- A prompt object inside `result.optimized_prompts`; the extractors probe
`.template`, `.text`, and fall back to `str(...)`. -/
structure PromptObj where
  template : Option String
  text : Option String
  strRepr : String

/-- The attribute shape of an MLflow `PromptOptimizationResult`, as probed by
`hasattr` in the extractors.  `none` models an absent attribute. -/
structure GepaResultObj where
  initial_eval_score : Option JVal
  final_eval_score : Option JVal
  optimizer_name : Option JVal
  optimized_prompts : Option (List PromptObj)
  iterations : Option JVal
  num_iterations : Option JVal

/-- Outcomes of the calls `optimize_with_gepa` / the GEPA worker make into
MLflow and the provider SDKs. -/
structure GepaEnv where
  mlflowOk : Except PyExc Unit
  registerOutcome : Except PyExc Unit
  loadOutcome : Except PyExc Unit
  clientEnv : ClientEnv
  optimizeOutcome : Except PyExc GepaResultObj

/-- The error dictionary returned by `optimize_with_gepa`'s handlers. -/
def gepaErrorDict (msg : String) (withTb : Bool) : JVal :=
  if withTb then
    .obj [("type", .str "error"), ("message", .str msg), ("traceback", .str "Traceback (most recent call last): ...")]
  else
    .obj [("type", .str "error"), ("message", .str msg)]

/-- The dataset/prompt reshaping at the start of `optimize_with_gepa`
(lines 647-668): experiment name lookup, input key, the transformation of
`config['dataset']` into MLflow's inputs/expectations shape, and the
initial prompt template. -/
def gepaReshapeConfig (config : JVal) : Except PyExc (List JVal × JVal) := do
  let mlflowCfg ← pyDictGet config "mlflow_config" (.obj [])
  let _experimentName ← pyDictGet mlflowCfg "experiment_name" (.str "tokn-gepa")
  let inputKey ← pyDictGet config "input_key" (.str "question")
  let ds ← pySubscript config "dataset"
  let items ← pyIter ds
  let trainData ← items.mapM (fun ex => do
    let inp ← pySubscript ex "input"
    let out ← pySubscript ex "expected_output"
    pure (JVal.obj [("inputs", .obj [(pyStrOf inputKey, inp)]),
                    ("expectations", .obj [("expected_response", out)])]))
  let initialPrompt ← pySubscript config "prompt_template"
  pure (trainData, initialPrompt)

/-- The model-selection and optimizer-configuration segment of
`optimize_with_gepa` (lines 690-786), up to but excluding the
`optimize_prompts` call. -/
def gepaPrepareCall (config : JVal) (cenv : ClientEnv) : Except PyExc Unit := do
  let mcs ← pySubscript config "model_configs"
  let modelConfig ← if mcs.truthy then pyIndexZero mcs else pure (JVal.obj [])
  let _modelId ← pyDictGet modelConfig "model" .null
  let _clientInfo ← get_model_client modelConfig cenv
  let provider ← pyDictGet modelConfig "provider" (.str "openai")
  let modelName ← pyDictGet modelConfig "model" .null
  let _apiKey ← pyDictGet modelConfig "api_key" (.str "")
  let provider := if provider == JVal.str "google" then JVal.str "gemini" else provider
  let _reflectionModel := pyStrOf provider ++ ":/" ++ pyStrOf modelName
  let gepaConfig ← pyDictGet config "gepa_config" (.obj [])
  let numGen ← pyDictGet gepaConfig "num_generations" (.num 5)
  let popSize ← pyDictGet gepaConfig "population_size" (.num 10)
  let _maxMetricCalls ← pyMul numGen popSize
  pure ()

/-- Python `optimize_with_gepa(config)` (src/backend/gepa_custom/gepa_optimizer.py,
lines 606-826).  Returns the list of external optimizer calls made and the
result dictionary; every exception is converted to an error dictionary by
the enclosing handlers, so the function itself never raises.  Note that the
prompt-registration block never raises (its inner handlers fall back to a
locally constructed `SimplePrompt`), and that no emptiness check is applied
to the dataset before the registry and `optimize_prompts` calls. -/
def optimize_with_gepa (config : JVal) (env : GepaEnv) : List OptCall × JVal :=
  match env.mlflowOk with
  | .error e =>
    ([], gepaErrorDict
      ("MLflow library not found. Please install it with: pip install mlflow>=3.5.0. Error: " ++ pyExcStr e)
      false)
  | .ok _ =>
    match gepaReshapeConfig config with
    | .error e => ([], gepaErrorDict (pyExcStr e) true)
    | .ok (_trainData, _initialPrompt) =>
      -- prompt registration: `register_prompt`, falling back to `load_prompt`,
      -- falling back to a local SimplePrompt object; never raises
      let regCalls : List OptCall :=
        match env.registerOutcome with
        | .ok _ => [.registerPrompt]
        | .error _ => [.registerPrompt, .loadPrompt]
      match gepaPrepareCall config env.clientEnv with
      | .error e => (regCalls, gepaErrorDict (pyExcStr e) true)
      | .ok _ =>
        let calls := regCalls ++ [.optimizePrompts]
        match env.optimizeOutcome with
        | .error e => (calls, gepaErrorDict (pyExcStr e) true)
        | .ok robj =>
          let optimizedText : String :=
            match robj.optimized_prompts with
            | some (p :: _) =>
              match p.template with
              | some t => t
              | none => p.strRepr
            | _ => ""
          let initialScore : Except PyExc DecNum :=
            match robj.initial_eval_score with
            | some v => pyFloat v
            | none => .ok 0
          let finalScore : Except PyExc DecNum :=
            match robj.final_eval_score with
            | some v => pyFloat v
            | none => .ok 0
          match initialScore with
          | .error e => (calls, gepaErrorDict (pyExcStr e) true)
          | .ok iSc =>
            match finalScore with
            | .error e => (calls, gepaErrorDict (pyExcStr e) true)
            | .ok fSc =>
              (calls, .obj [("type", .str "success"),
                            ("optimized_prompt", .str optimizedText),
                            ("metrics", .obj [("initial_score", .num iSc),
                                              ("final_score", .num fSc),
                                              ("best_score", .num fSc)]),
                            ("mlflow_run_id", .null),
                            ("message", .str "Optimization completed successfully")])

/-! ## HTTP layer -/

/-- The parts of a Flask JSON response the claims are about: status code,
the body's `success` flag, its `code` field (absent on 200 responses) and
its `error` message. -/
structure HttpResponse where
  status : Nat
  success : Bool
  code : Option String
  errorMsg : Option String
deriving Repr, DecidableEq

/-- The 400 envelope produced by request validation. -/
def invalidRequest (msg : String) : HttpResponse :=
  ⟨400, false, some "INVALID_REQUEST", some msg⟩

/-- The `except ImportError` / `except Exception` clauses of the DSPy route. -/
def dspyExcResponse : PyExc → HttpResponse
  | .importError m => ⟨500, false, some "DEPENDENCY_MISSING", some ("DSPy not installed: " ++ m)⟩
  | e => ⟨500, false, some "INTERNAL_ERROR", some (pyExcStr e)⟩

/-- The `except ImportError` / `except Exception` clauses of the GEPA route. -/
def gepaExcResponse : PyExc → HttpResponse
  | .importError m => ⟨500, false, some "DEPENDENCY_MISSING", some ("GEPA dependencies not installed: " ++ m)⟩
  | e => ⟨500, false, some "INTERNAL_ERROR", some (pyExcStr e)⟩

/-- The `for field in required_fields` loop: the first field with
`field not in data`, or `none` when all are present.  Propagates the
`TypeError` Python's `in` raises on non-container bodies. -/
def checkRequired (fields : List String) (data : JVal) : Except PyExc (Option String) :=
  match fields with
  | [] => .ok none
  | f :: rest => do
    let present ← pyContains data f
    if present then checkRequired rest data else pure (some f)

def dspyRequiredFields : List String := ["prompt", "examples", "model", "provider", "apiKey"]

def gepaRequiredFields : List String := ["prompt", "examples", "providers"]

/-- One step of the DSPy route's example-reshaping comprehension
(lines 63-66): `{'input': ex['input'], 'output': ex['expected_output']}`,
whose subscripts raise `KeyError` on malformed examples. -/
def dspyExampleItem (ex : JVal) : Except PyExc JVal := do
  let inp ← pySubscript ex "input"
  let out ← pySubscript ex "expected_output"
  pure (.obj [("input", inp), ("output", out)])

/-- One step of the GEPA route's example-reshaping comprehension
(lines 47-53). -/
def gepaExampleItem (ex : JVal) : Except PyExc JVal := do
  let inp ← pySubscript ex "input"
  let out ← pySubscript ex "expected_output"
  pure (.obj [("input", inp), ("expected_output", out)])

/-- One step of the GEPA route's provider-reshaping comprehension
(lines 56-62). -/
def gepaProviderItem (p : JVal) : Except PyExc JVal := do
  let pr ← pySubscript p "provider"
  let m ← pySubscript p "model"
  let k ← pySubscript p "apiKey"
  let b ← pyDictGet p "apiBase" .null
  pure (.obj [("provider", pr), ("model", m), ("api_key", k), ("api_base", b)])

/-- The config-building block of the DSPy route (lines 46-67), including the
example-reshaping comprehension whose `ex['input']` / `ex['expected_output']`
subscripts raise `KeyError` on malformed examples. -/
def buildDspyConfig (data : JVal) : Except PyExc JVal := do
  let provider ← pySubscript data "provider"
  let model ← pySubscript data "model"
  let apiKey ← pySubscript data "apiKey"
  let apiBase ← pyDictGet data "apiBase" .null
  let cfg ← pyDictGet data "config" (.obj [])
  let maxBoot ← pyDictGet cfg "maxBootstrappedDemos" (.num 4)
  let maxLab ← pyDictGet cfg "maxLabeledDemos" (.num 16)
  let temp ← pyDictGet cfg "temperature" (.num 1)
  let teacher ← pyDictGet cfg "teacherSettings" (.obj [])
  let metric ← pyDictGet cfg "metric" (.str "exact_match")
  let exsVal ← pySubscript data "examples"
  let items ← pyIter exsVal
  let ds ← items.mapM dspyExampleItem
  pure (.obj [("model_config", .obj [("provider", provider), ("model", model),
                                     ("api_key", apiKey), ("api_base", apiBase)]),
              ("optimizer", .str "MIPRO"),
              ("optimizer_config", .obj [("max_bootstrapped_demos", maxBoot),
                                         ("max_labeled_demos", maxLab),
                                         ("temperature", temp),
                                         ("teacher_settings", teacher)]),
              ("metric_config", .obj [("type", metric)]),
              ("train_dataset", .arr ds)])

/-- The config-building block of the GEPA route (lines 45-74). -/
def buildGepaConfig (data : JVal) : Except PyExc JVal := do
  let prompt ← pySubscript data "prompt"
  let exsVal ← pySubscript data "examples"
  let items ← pyIter exsVal
  let ds ← items.mapM gepaExampleItem
  let cfg ← pyDictGet data "config" (.obj [])
  let inputKey ← pyDictGet cfg "inputKey" (.str "question")
  let provsVal ← pySubscript data "providers"
  let pitems ← pyIter provsVal
  let mcs ← pitems.mapM gepaProviderItem
  let popSize ← pyDictGet cfg "populationSize" (.num 10)
  let numGen ← pyDictGet cfg "numGenerations" (.num 5)
  let mutRate ← pyDictGet cfg "mutationRate" (.num 0.3)
  let elite ← pyDictGet cfg "eliteSize" (.num 2)
  let mlflowCfg ← pyDictGet data "mlflowConfig" (.obj [])
  let trackingUri ← pyDictGet mlflowCfg "trackingUri" .null
  let expName ← pyDictGet mlflowCfg "experimentName" (.str "tokn-gepa")
  pure (.obj [("prompt_template", prompt),
              ("dataset", .arr ds),
              ("input_key", inputKey),
              ("model_configs", .arr mcs),
              ("gepa_config", .obj [("population_size", popSize),
                                    ("num_generations", numGen),
                                    ("mutation_rate", mutRate),
                                    ("elite_size", elite)]),
              ("mlflow_config", .obj [("tracking_uri", trackingUri),
                                      ("experiment_name", expName)])])

/-- The result-to-response mapping at the end of both routes: a `'success'`
result dict becomes a 200, anything else a 500 `OPTIMIZATION_FAILED`. -/
def resultToResponse (result : JVal) : Except PyExc HttpResponse := do
  let ty ← pySubscript result "type"
  if ty == JVal.str "success" then do
    let _op ← pySubscript result "optimized_prompt"
    pure ⟨200, true, none, none⟩
  else do
    let msg ← pyDictGet result "message" (.str "Optimization failed")
    pure ⟨500, false, some "OPTIMIZATION_FAILED", some (pyStrOf msg)⟩

/-- Environment of the DSPy route: the outcome of
`from dspy.dspy_optimizer import optimize_prompt` and of the
`optimize_prompt(config)` call itself (the repository ships no
`optimize_prompt`, so in the shipped tree the import raises, but the
handler is modelled for an arbitrary outcome). -/
structure DspyRouteEnv where
  importOutcome : Except PyExc Unit
  optimizeResult : Except PyExc JVal

/-- A run of the DSPy route: the HTTP response and whether the external
optimizer function was invoked. -/
structure DspyRouteRun where
  response : HttpResponse
  optimizerInvoked : Bool
deriving Repr, DecidableEq

/-- Python `optimize_dspy` (src/backend/routes/dspy_route.py, lines 15-105).
`body` is the value of `request.get_json()` (`none` = no JSON body). -/
def optimize_dspy (body : Option JVal) (env : DspyRouteEnv) : DspyRouteRun :=
  match body with
  | none => ⟨invalidRequest "Request body is required", false⟩
  | some data =>
    if !data.truthy then ⟨invalidRequest "Request body is required", false⟩
    else
      match checkRequired dspyRequiredFields data with
      | .error e => ⟨dspyExcResponse e, false⟩
      | .ok (some f) => ⟨invalidRequest ("Missing required field: " ++ f), false⟩
      | .ok none =>
        match env.importOutcome with
        | .error e => ⟨dspyExcResponse e, false⟩
        | .ok _ =>
          match buildDspyConfig data with
          | .error e => ⟨dspyExcResponse e, false⟩
          | .ok _config =>
            match env.optimizeResult with
            | .error e => ⟨dspyExcResponse e, true⟩
            | .ok result =>
              match resultToResponse result with
              | .error e => ⟨dspyExcResponse e, true⟩
              | .ok resp => ⟨resp, true⟩

/-- Environment of the GEPA route: the outcome of
`from gepa.gepa_optimizer import optimize_with_gepa`, plus the environment
threaded into the modelled `optimize_with_gepa` itself. -/
structure GepaRouteEnv where
  importOutcome : Except PyExc Unit
  gepaEnv : GepaEnv

/-- A run of the GEPA route: HTTP response, whether `optimize_with_gepa` was
invoked, and the external optimizer calls it performed. -/
structure GepaRouteRun where
  response : HttpResponse
  optimizerInvoked : Bool
  calls : List OptCall
deriving Repr, DecidableEq

/-- Python `optimize_gepa` (src/backend/routes/gepa_route.py, lines 14-111). -/
def optimize_gepa (body : Option JVal) (env : GepaRouteEnv) : GepaRouteRun :=
  match body with
  | none => ⟨invalidRequest "Request body is required", false, []⟩
  | some data =>
    if !data.truthy then ⟨invalidRequest "Request body is required", false, []⟩
    else
      match checkRequired gepaRequiredFields data with
      | .error e => ⟨gepaExcResponse e, false, []⟩
      | .ok (some f) => ⟨invalidRequest ("Missing required field: " ++ f), false, []⟩
      | .ok none =>
        match env.importOutcome with
        | .error e => ⟨gepaExcResponse e, false, []⟩
        | .ok _ =>
          match buildGepaConfig data with
          | .error e => ⟨gepaExcResponse e, false, []⟩
          | .ok config =>
            let (calls, result) := optimize_with_gepa config env.gepaEnv
            match resultToResponse result with
            | .error e => ⟨gepaExcResponse e, true, calls⟩
            | .ok resp => ⟨resp, true, calls⟩

/-! ## Health endpoint -/

structure HealthFeatures where
  dspy : Bool
  gepa : Bool
  mlflow : Bool
deriving Repr, DecidableEq

structure HealthResponse where
  status : Nat
  statusField : String
  version : String
  features : HealthFeatures
deriving Repr, DecidableEq

/-- Python `health_check` (src/backend/routes/health_route.py, lines 10-39): the two
booleans are the outcomes of `import dspy` / `import mlflow`; the `gepa`
feature flag is set from the MLflow flag. -/
def health_check (dspyAvailable mlflowAvailable : Bool) : HealthResponse :=
  ⟨200, "ok", "1.0.0", ⟨dspyAvailable, mlflowAvailable, mlflowAvailable⟩⟩

/-! ## Worker runs -/

/-- One worker process execution: the line-delimited messages written to
stdout, the external optimizer calls made, and the process exit code. -/
structure WorkerRun where
  msgs : List Msg
  calls : List OptCall
  exitCode : Nat

/-! ## DSPy worker (src/backend/dspy/dspy_optimizer.py) -/

/-- Outcomes of the DSPy worker's calls into external libraries. -/
structure SigObj where
  instructions : Option String
  docstr : Option String

structure DemoObj where
  question : Option String
  answer : Option String

/-- The value of a predictor's `demos` attribute: a list of demo objects, or
a truthy non-sized value on which `len()` raises `TypeError`. -/
inductive DemosVal where
  | objs (demos : List DemoObj)
  | unsized

/-- Outcome of `adapter.format(...)` inside its own `try`: it either raises
(silently swallowed) or yields a string. -/
inductive FormatRes where
  | raises
  | value (s : String)

/-- One entry of `compiled_program.named_predictors()`, with the attributes
the extractor probes via `hasattr`. -/
structure PredictorObj where
  pname : String
  ptypeName : String
  signature : Option SigObj
  extended_signature : Option SigObj
  formatOutcome : FormatRes
  demos : Option DemosVal

/-- A compiled DSPy program as seen by the extractor: `named_predictors()`
either yields a list or raises. -/
structure CompiledProgram where
  namedPredictors : Except PyExc (List PredictorObj)

structure DspyEnv where
  dspyOk : Except PyExc Unit
  lmOutcome : Except PyExc Unit
  semanticF1Ok : Bool
  adapterOk : Bool
  miproOutcome : Except PyExc CompiledProgram
  evalOutcome : Except PyExc JVal
  saveOk : Except PyExc Unit

/-- Python `setup_language_model(config)` (lines 42-91): reads the provider with
`.get`, builds a `dspy.LM` for `'openai'` / `'anthropic'`, and raises a
`ValueError` naming the provider for everything else.  Environment-variable
API-key fallbacks are omitted (no control-flow effect). -/
def setup_language_model (config : JVal) (env : DspyEnv) : Except PyExc Unit := do
  let provider ← pyDictGet config "provider" (.str "openai")
  let _modelId ← pyDictGet config "model" (.str "gpt-4o-mini")
  let _apiKey ← pyDictGet config "api_key" (.str "")
  let _apiBase ← pyDictGet config "api_base" .null
  if provider == JVal.str "openai" then
    env.lmOutcome
  else if provider == JVal.str "anthropic" then
    env.lmOutcome
  else
    .error (.valueError ("Unsupported provider: " ++ pyStrOf provider ++ ". Use 'openai' or 'anthropic'."))

namespace Dspy

/-- Python `prepare_dataset(dataset_raw, dataset_name)` (lines 98-129): raises on an
empty (or falsy) dataset, then converts each item, raising when `'input'`
or `'output'` is missing. -/
def prepare_dataset (raw : JVal) (name : String) : Except PyExc (List (String × String)) := do
  let empty ← if !raw.truthy then pure true else do
    let n ← pyLen raw
    pure (n == 0)
  if empty then
    .error (.valueError (name ++ " is empty"))
  else do
    let items ← pyIter raw
    items.enum.mapM (fun p => do
      let hasInp ← pyContains p.2 "input"
      let hasOut ← pyContains p.2 "output"
      if !hasInp || !hasOut then
        .error (.valueError (name ++ "[" ++ toString p.1 ++ "] missing 'input' or 'output' field"))
      else do
        let inp ← pySubscript p.2 "input"
        let out ← pySubscript p.2 "output"
        pure (pyStrOf inp, pyStrOf out))

end Dspy

inductive MetricKind where
  | exactMatch
  | containsAnswer
  | semanticF1
deriving Repr, DecidableEq

/-- Python `create_metric(metric_config)` (lines 136-191): dispatch on the metric
type; `semantic_f1` falls back to exact match (with a progress message) when
`SemanticF1` cannot be imported; unknown types raise `ValueError`. -/
def create_metric (config : JVal) (env : DspyEnv) : List String × Except PyExc MetricKind :=
  match pyDictGet config "type" (.str "exact_match") with
  | .error e => ([], .error e)
  | .ok mt =>
    if mt == JVal.str "exact_match" then ([], .ok .exactMatch)
    else if mt == JVal.str "contains" then ([], .ok .containsAnswer)
    else if mt == JVal.str "semantic_f1" then
      if env.semanticF1Ok then ([], .ok .semanticF1)
      else (["SemanticF1 not available, falling back to exact match"], .ok .exactMatch)
    else
      ([], .error (.valueError ("Unknown metric type: " ++ pyStrOf mt ++
        ". Use 'exact_match', 'contains', or 'semantic_f1'.")))

inductive ProgramKind where
  | predict
  | chainOfThought
  | react
deriving Repr, DecidableEq

/-- Python `create_dspy_program(program_type, initial_instruction)` (lines 198-261):
unknown program types log a message and fall back to `'predict'`. -/
def create_dspy_program (programType : JVal) (_initialInstruction : JVal) :
    List String × ProgramKind :=
  if programType == JVal.str "predict" then ([], .predict)
  else if programType == JVal.str "chain_of_thought" then ([], .chainOfThought)
  else if programType == JVal.str "react" then ([], .react)
  else (["Unknown program type '" ++ pyStrOf programType ++ "', using 'predict'"], .predict)

/-- Python `run_mipro(program, trainset, valset, metric, config)` (lines 268-334):
progress messages, configuration reads, the `MIPROv2(...).compile` call
(an external-library event), and the completion message. -/
def run_mipro (config : JVal) (env : DspyEnv) :
    List String × List OptCall × Except PyExc CompiledProgram :=
  let ms0 := ["Starting MIPROv2 optimization"]
  match (do
      let mode ← pyDictGet config "mode" (.str "light")
      let _mb ← pyDictGet config "max_bootstrapped_demos" (.num 4)
      let _ml ← pyDictGet config "max_labeled_demos" (.num 4)
      let _mini ← pyDictGet config "minibatch" (.bool true)
      let _minis ← pyDictGet config "minibatch_size" (.num 35)
      let _mth ← pyDictGet config "metric_threshold" .null
      pure mode : Except PyExc JVal) with
  | .error e => (ms0, [], .error e)
  | .ok mode =>
    let ms1 := ms0 ++ ["Optimizing with mode=" ++ pyStrOf mode,
                       "Running MIPROv2 optimization (this may take a few minutes)..."]
    match env.miproOutcome with
    | .error e => (ms1, [.miproCompile], .error e)
    | .ok cp => (ms1 ++ ["Optimization complete"], [.miproCompile], .ok cp)

/-- Python `evaluate_program(program, devset, metric)` (lines 341-387): logs, runs
the external evaluator, converts the result with `float(...)`, and
normalises percentage scores to decimals. -/
def evaluate_program (devsetLen : Nat) (env : DspyEnv) : List String × Except PyExc DecNum :=
  let ms := ["Evaluating on " ++ toString devsetLen ++ " examples..."]
  match env.evalOutcome with
  | .error e => (ms, .error e)
  | .ok v =>
    match pyFloat v with
    | .error e => (ms, .error e)
    | .ok score =>
      -- `score > 1` is `mant > 10 ^ exp`; `score / 100` adds 2 to the exponent
      (ms, .ok (if (10 : Int) ^ score.exp < score.mant then ⟨score.mant, score.exp + 2⟩ else score))

/-! ## Result dictionaries and the DSPy result extractor -/

/-- A Python dict under construction, as an insertion-ordered assoc list. -/
abbrev Dict := List (String × JVal)

/-- Python `d[k] = v` on a dict: replace in place, append when new. -/
def updKey (d : Dict) (k : String) (v : JVal) : Dict :=
  match d with
  | [] => [(k, v)]
  | (k', v') :: rest => if k' == k then (k, v) :: rest else (k', v') :: updKey rest k v

/-- Python `d[k] = f(d[k])` for a key known to be present (no-op when absent). -/
def updKeyWith (d : Dict) (k : String) (f : JVal → JVal) : Dict :=
  match d with
  | [] => []
  | (k', v') :: rest => if k' == k then (k, f v') :: rest else (k', v') :: updKeyWith rest k f

def hasKey (d : Dict) (k : String) : Bool := (d.lookup k).isSome

/-- Python `obj[k] = v` on a JSON object value. -/
def objInsert (v : JVal) (k : String) (x : JVal) : JVal :=
  match v with
  | .obj fs => .obj (updKey fs k x)
  | _ => v

/-- Python `xs.append(x)` on a JSON array value. -/
def arrPush (v : JVal) (x : JVal) : JVal :=
  match v with
  | .arr xs => .arr (xs ++ [x])
  | _ => v

def arrPushMany (v : JVal) (xs : List JVal) : JVal :=
  match v with
  | .arr ys => .arr (ys ++ xs)
  | _ => v

/-- The default shape of `extract_optimized_results`' dictionary. -/
def dspyResultsInit : Dict :=
  [("instructions", .obj []), ("demos", .arr []),
   ("predictors", .arr []), ("formatted_prompts", .obj [])]

/-- The two warning progress messages logged by the extractors' handlers. -/
def extractWarnMsgs (e : PyExc) : List String :=
  ["Warning: Could not fully extract results: " ++ pyExcStr e,
   "Traceback: Traceback (most recent call last): ..."]

/-- Method 1 of the extractor's per-predictor body (lines 429-441): the
adapter-formatted prompt, with `adapter.format` failures swallowed by the
inner `try` and falsy results skipped. -/
def predFormattedUpdate (adapterOk : Bool) (p : PredictorObj) (res : Dict) : Dict :=
  if adapterOk && p.signature.isSome then
    match p.formatOutcome with
    | .raises => res
    | .value s =>
      if s.isEmpty then res
      else updKeyWith res "formatted_prompts" (fun v => objInsert v p.pname (.str s))
  else res

/-- Methods 2 and 3 (lines 443-457): the instruction from
`signature.instructions`, `signature.__doc__`, or `extended_signature`. -/
def predInstruction (p : PredictorObj) : Option String :=
  let instr : Option String :=
    match p.signature with
    | some sig =>
      match sig.instructions with
      | some s => some s
      | none => sig.docstr
    | none => none
  match instr with
  | some s => some s
  | none =>
    match p.extended_signature with
    | some sig => sig.instructions
    | none => none

/-- Lines 459-464: strip the instruction and record it, returning the
updated dictionary and the predictor-info entry. -/
def predInstrUpdate (p : PredictorObj) (res : Dict) : Dict × Dict :=
  match predInstruction p with
  | some s =>
    let t := pyStrip s
    if t.toList.isEmpty then (res, ([] : Dict))
    else (updKeyWith res "instructions" (fun v => objInsert v p.pname (.str t)),
          [("instruction", JVal.str t)])
  | none => (res, [])

/-- Lines 466-478: the demo extraction, where `len()` on a truthy non-sized
`demos` attribute raises `TypeError`, carrying out the dictionary updated so
far. -/
def predDemoStep (p : PredictorObj) (res : Dict) : Except (Dict × PyExc) (Dict × Dict) :=
  match p.demos with
  | some .unsized => .error (res, .typeError "object of type has no len")
  | some (.objs ds) =>
    if ds.isEmpty then .ok (res, [])
    else
      let demoDicts := (ds.take 10).map (fun d =>
        JVal.obj [("predictor", .str p.pname),
                  ("input", .str ((d.question).getD "")),
                  ("output", .str ((d.answer).getD ""))])
      .ok (updKeyWith res "demos" (fun v => arrPushMany v demoDicts),
           [("demo_count", JVal.num ⟨ds.length, 0⟩)])
  | none => .ok (res, [])

/-- The body of the `for name, module in compiled_program.named_predictors()`
loop (lines 423-480) for a single predictor, composed of the steps above
plus the final `predictors` append. -/
def processPredictor (adapterOk : Bool) (p : PredictorObj) (res : Dict) :
    Except (Dict × PyExc) Dict :=
  let res := predFormattedUpdate adapterOk p res
  let (res, instrEntry) := predInstrUpdate p res
  match predDemoStep p res with
  | .error x => .error x
  | .ok (res, demoEntry) =>
    let pinfo := JVal.obj ([("name", .str p.pname), ("type", .str p.ptypeName)]
                           ++ instrEntry ++ demoEntry)
    .ok (updKeyWith res "predictors" (fun v => arrPush v pinfo))

def processPredictors (adapterOk : Bool) : List PredictorObj → Dict → Except (Dict × PyExc) Dict
  | [], res => .ok res
  | p :: ps, res =>
    match processPredictor adapterOk p res with
    | .ok res' => processPredictors adapterOk ps res'
    | .error x => .error x

/-- The `if not results['instructions'] and results['formatted_prompts']`
fallback at the end of the extractor (lines 482-486): copy the formatted
prompts into `instructions`. -/
def dspyInstructionFallback (d : Dict) : Dict :=
  match d.lookup "instructions", d.lookup "formatted_prompts" with
  | some instrs, some (.obj fps) =>
    if !instrs.truthy && !fps.isEmpty then
      fps.foldl (fun acc kv =>
        updKeyWith acc "instructions" (fun v => objInsert v kv.1 (.str (pyStrOf kv.2)))) d
    else d
  | _, _ => d

/-- Python `extract_optimized_results(compiled_program)`
(src/backend/dspy/dspy_optimizer.py, lines 394-495).  The whole traversal is
wrapped in `try/except Exception`; failures log two warning progress
messages and the partially filled dictionary is returned, so the function
never raises. -/
def extract_optimized_results (adapterOk : Bool) (cp : CompiledProgram) :
    List String × Dict :=
  match cp.namedPredictors with
  | .error e => (extractWarnMsgs e, dspyResultsInit)
  | .ok ps =>
    match processPredictors adapterOk ps dspyResultsInit with
    | .error (d, e) => (extractWarnMsgs e, d)
    | .ok d =>
      -- fall back to formatted prompts when no instructions were found
      let d := dspyInstructionFallback d
      let nDemos :=
        match d.lookup "demos" with
        | some (.arr xs) => xs.length
        | _ => 0
      let nInstr :=
        match d.lookup "instructions" with
        | some (.obj fs) => fs.length
        | _ => 0
      (["Extracted " ++ toString nDemos ++ " demos and " ++ toString nInstr ++
        " optimized instructions"], d)

/-- Python `save_compiled_program` (lines 502-526): returns the (absolute) save path,
and on any failure returns the input path; it never raises. -/
def save_compiled_program (savePath : String) (env : DspyEnv) : String :=
  match env.saveOk with
  | .ok _ => savePath
  | .error _ => savePath

/-! ## DSPy worker main -/

/-- Python `int(n * 0.8)`, the auto-split index of `main` (line 565).  Embedded with
exact arithmetic as `⌊4n/5⌋`; the float computation agrees for every
realizable dataset size. -/
def autoSplitIdx (n : Nat) : Nat := n * 4 / 5

/-- The auto-split branch of `main` (lines 563-573): 80/20 split when the
split index is below the dataset size, otherwise train = val = everything.
Returns (trainset, valset, progress message). -/
def autoSplit (trainset : List (String × String)) :
    List (String × String) × List (String × String) × String :=
  let splitIdx := autoSplitIdx trainset.length
  if splitIdx < trainset.length then
    (trainset.take splitIdx, trainset.drop splitIdx,
     "Using " ++ toString (trainset.take splitIdx).length ++ " training examples, " ++
       toString (trainset.drop splitIdx).length ++ " validation examples")
  else
    (trainset, trainset,
     "Using " ++ toString trainset.length ++ " examples for training and validation")

/-- The `try` body of the DSPy worker's `main` (lines 536-623) after stdin
parsing: progress-message strings, external calls, and either the success
payload or the exception reaching the top-level handler. -/
def dspyMainCore (config : JVal) (env : DspyEnv) :
    List String × List OptCall × Except PyExc (List (String × JVal)) :=
  match env.dspyOk with
  | .error _ =>
    ([], [], .error (.importError "DSPy library not found. Please install it with: pip install dspy-ai"))
  | .ok _ =>
  let ms0 := ["Initializing DSPy optimizer..."]
  match pySubscript config "model_config" with
  | .error e => (ms0, [], .error e)
  | .ok mc =>
  match setup_language_model mc env with
  | .error e => (ms0, [], .error e)
  | .ok _ =>
  match (do
      let td ← pySubscript config "train_dataset"
      Dspy.prepare_dataset td "train_dataset" : Except PyExc _) with
  | .error e => (ms0, [], .error e)
  | .ok trainset0 =>
  let valSpec : Except PyExc (Option JVal) := do
    let hasVal ← pyContains config "val_dataset"
    if hasVal then do
      let v ← pySubscript config "val_dataset"
      pure (if v.truthy then some v else none)
    else pure none
  match valSpec with
  | .error e => (ms0, [], .error e)
  | .ok valRaw =>
  let splitRes : Except PyExc (List (String × String) × List (String × String) × List String) :=
    match valRaw with
    | some v =>
      match Dspy.prepare_dataset v "val_dataset" with
      | .error e => .error e
      | .ok vs => .ok (trainset0, vs, [])
    | none =>
      let (ts, vs, m) := autoSplit trainset0
      .ok (ts, vs, [m])
  match splitRes with
  | .error e => (ms0, [], .error e)
  | .ok (trainset, valset, msSplit) =>
  let ms1 := ms0 ++ msSplit
  match pySubscript config "metric_config" with
  | .error e => (ms1, [], .error e)
  | .ok mcfg =>
  match create_metric mcfg env with
  | (msM, .error e) => (ms1 ++ msM, [], .error e)
  | (msM, .ok _metric) =>
  let ms2 := ms1 ++ msM
  match (do
      let pt ← pyDictGet config "program_type" (.str "predict")
      let ii ← pyDictGet config "initial_instruction" (.str "")
      pure (pt, ii) : Except PyExc _) with
  | .error e => (ms2, [], .error e)
  | .ok (programType, initialInstruction) =>
  let (msP, _program) := create_dspy_program programType initialInstruction
  let ms3 := ms2 ++ msP
  match (do
      let ot ← pyDictGet config "optimizer" (.str "MIPROv2")
      let oc ← pyDictGet config "optimizer_config" (.obj [])
      pure (ot, oc) : Except PyExc _) with
  | .error e => (ms3, [], .error e)
  | .ok (optimizerType, optimizerConfig) =>
  if optimizerType == JVal.str "MIPRO" || optimizerType == JVal.str "MIPROv2" then
    match run_mipro optimizerConfig env with
    | (msR, calls, .error e) => (ms3 ++ msR, calls, .error e)
    | (msR, calls, .ok compiled) =>
    let ms4 := ms3 ++ msR
    match evaluate_program valset.length env with
    | (msE, .error e) => (ms4 ++ msE, calls, .error e)
    | (msE, .ok validationScore) =>
    let ms5 := ms4 ++ msE
    let (msX, extracted) := extract_optimized_results env.adapterOk compiled
    let ms6 := ms5 ++ msX
    match pyDictGet config "save_path" (.str "./dspy_compiled_program") with
    | .error e => (ms6, calls, .error e)
    | .ok savePathV =>
    let savedPath := save_compiled_program (pyStrOf savePathV) env
    let ms7 := ms6 ++ ["Optimization complete! Validation score: " ++
                       toString (DecNum.mk (validationScore.mant * 100) validationScore.exp) ++ "%"]
    (ms7, calls, .ok
      [("type", .str "success"),
       ("validation_score", .num validationScore),
       ("optimized_signature", (extracted.lookup "instructions").getD (.obj [])),
       ("optimized_demos", (extracted.lookup "demos").getD (.arr [])),
       ("predictors", (extracted.lookup "predictors").getD (.arr [])),
       ("compiled_program_path", .str savedPath),
       ("dataset_sizes", .obj [("train", .num ⟨trainset.length, 0⟩),
                               ("val", .num ⟨valset.length, 0⟩)]),
       ("optimizer", optimizerType),
       ("program_type", programType)])
  else
    (ms3, [], .error (.valueError ("Unknown optimizer: " ++ pyStrOf optimizerType ++
      ". Use 'MIPROv2' for instruction optimization.")))

/-- The shared skeleton of both workers' `main`: the stdin emptiness check
and `json.loads` (raising on malformed input), then the `try` body `core`,
whose exception reaches the top-level handler (one `error` message with
traceback, exit 1) and whose success result is printed before exit 0. -/
def workerWrap (stdin : String) (parsed : Option JVal)
    (core : JVal → List String × List OptCall × Except PyExc (List (String × JVal))) :
    WorkerRun :=
  if stdin.isEmpty || pyStripIsEmpty stdin then
    ⟨[.error "No configuration received on stdin" true], [], 1⟩
  else
    match parsed with
    | none => ⟨[.error "Expecting value: line 1 column 1 (char 0)" true], [], 1⟩
    | some config =>
      match core config with
      | (ms, calls, .ok payload) => ⟨ms.map Msg.progress ++ [.success payload], calls, 0⟩
      | (ms, calls, .error e) => ⟨ms.map Msg.progress ++ [.error (pyExcStr e) true], calls, 1⟩

/-- Python `main()` of the DSPy worker (lines 533-631).  `stdin` is the raw standard
input; `parsed` is the result of `json.loads` on it (`none` = parse error). -/
def dspyMain (stdin : String) (parsed : Option JVal) (env : DspyEnv) : WorkerRun :=
  workerWrap stdin parsed (fun config => dspyMainCore config env)

/-! ## GEPA worker (src/backend/gepa_custom/gepa_optimizer.py) -/

/-- Python `.keys()` on a JSON value: keys for dicts, `AttributeError` otherwise. -/
def pyKeys (v : JVal) : Except PyExc (List String) :=
  match v with
  | .obj fs => .ok (fs.map Prod.fst)
  | _ => .error (.attributeError "object has no attribute keys")

namespace Gepa

/-- Python `prepare_dataset(dataset_raw, dataset_name)` (lines 187-213 of the GEPA
worker): raises on an empty (or falsy) dataset, then checks that every item
has `'inputs'`, `'expectations'`, and a nested `'expected_response'`. -/
def prepare_dataset (raw : JVal) (name : String) : Except PyExc (List JVal) := do
  let empty ← if !raw.truthy then pure true else do
    let n ← pyLen raw
    pure (n == 0)
  if empty then
    .error (.valueError (name ++ " is empty"))
  else do
    let items ← pyIter raw
    items.enum.mapM (fun p => do
      let hasInputs ← pyContains p.2 "inputs"
      if !hasInputs then
        .error (.valueError (name ++ "[" ++ toString p.1 ++ "] missing 'inputs' field"))
      else do
        let hasExp ← pyContains p.2 "expectations"
        if !hasExp then
          .error (.valueError (name ++ "[" ++ toString p.1 ++ "] missing 'expectations' field"))
        else do
          let expv ← pySubscript p.2 "expectations"
          let hasResp ← pyContains expv "expected_response"
          if !hasResp then
            .error (.valueError (name ++ "[" ++ toString p.1 ++
              "].expectations missing 'expected_response' field"))
          else
            pure p.2)

end Gepa

/-- Python `register_prompt_with_mlflow(prompt_name, prompt_template)` (lines
299-329): register, fall back to loading, and raise `RuntimeError` (naming
the registration error) only when both fail. -/
def register_prompt_with_mlflow (promptName : JVal) (env : GepaEnv) :
    List String × List OptCall × Except PyExc Unit :=
  match env.registerOutcome with
  | .ok _ =>
    (["Registered prompt '" ++ pyStrOf promptName ++ "'"], [.registerPrompt], .ok ())
  | .error e =>
    let ms0 := ["Prompt registration failed, attempting to load: " ++ pyExcStr e]
    match env.loadOutcome with
    | .ok _ =>
      (ms0 ++ ["Loaded existing prompt '" ++ pyStrOf promptName ++ "'"],
       [.registerPrompt, .loadPrompt], .ok ())
    | .error _ =>
      (ms0, [.registerPrompt, .loadPrompt],
       .error (.runtimeError ("Failed to register or load prompt: " ++ pyExcStr e)))

inductive ScorerKind where
  | correctness
  | safety
deriving Repr, DecidableEq

/-- The `for scorer_def in scorer_list` loop of `create_scorers`. -/
def scorerLoop : List JVal → List String × Except PyExc (List ScorerKind)
  | [] => ([], .ok [])
  | sd :: rest =>
    match (do
        let t ← pyDictGet sd "type" (.str "correctness")
        let _m ← pyDictGet sd "model" (.str "openai/gpt-4-mini")
        pure t : Except PyExc JVal) with
    | .error e => ([], .error e)
    | .ok t =>
      if t == JVal.str "correctness" then
        let (ms, r) := scorerLoop rest
        (ms, r.map (fun l => .correctness :: l))
      else if t == JVal.str "safety" then
        let (ms, r) := scorerLoop rest
        (ms, r.map (fun l => .safety :: l))
      else
        let (ms, r) := scorerLoop rest
        (("Unknown scorer type '" ++ pyStrOf t ++ "', skipping") :: ms, r)

/-- Python `create_scorers(scorer_config)` (lines 220-255): default to a single
Correctness scorer on an empty list, log-and-skip unknown scorer types. -/
def create_scorers (scorerConfig : JVal) : List String × Except PyExc (List ScorerKind) :=
  match pyDictGet scorerConfig "scorers" (.arr []) with
  | .error e => ([], .error e)
  | .ok sv =>
    if !sv.truthy then
      scorerLoop [.obj [("type", .str "correctness"), ("model", .str "openai/gpt-4-mini")]]
    else
      match pyIter sv with
      | .error e => ([], .error e)
      | .ok items => scorerLoop items

/-- Python `create_aggregation_fn(scorer_config)` (lines 258-292): `true` when a
weighted aggregation closure is returned, `false` for the None default. -/
def create_aggregation_fn (scorerConfig : JVal) : Except PyExc Bool := do
  let agg ← pyDictGet scorerConfig "aggregation" (.str "average")
  let w ← pyDictGet scorerConfig "weights" (.obj [])
  pure (agg == JVal.str "weighted" && w.truthy)

/-- Python `run_gepa_optimization(...)` (lines 336-392): progress messages around
the `mlflow.genai.optimize_prompts` call. -/
def run_gepa_optimization (trainLen : Nat) (maxMetricCalls : JVal) (env : GepaEnv) :
    List String × List OptCall × Except PyExc GepaResultObj :=
  let ms0 := ["Starting optimization (" ++ toString trainLen ++ " examples, " ++
              pyStrOf maxMetricCalls ++ " max calls)", "Running optimization..."]
  match env.optimizeOutcome with
  | .error e => (ms0, [.optimizePrompts], .error e)
  | .ok robj => (ms0 ++ ["Optimization complete"], [.optimizePrompts], .ok robj)

/-! ## GEPA result extractor -/

/-- The default shape of `extract_optimization_results`' dictionary. -/
def gepaResultsInit : Dict :=
  [("initial_score", .num 0), ("final_score", .num 0),
   ("optimized_prompt_text", .str ""), ("optimizer_name", .str ""),
   ("iterations", .num 0)]

/-- One `extracted[key] = float(attr)` step of the GEPA extractor: absent
attributes are skipped, a raising conversion carries out the dictionary
unchanged. -/
def gepaScoreStep (attr : Option JVal) (key : String) (d : Dict) :
    Except (Dict × PyExc) Dict :=
  match attr with
  | some v =>
    match pyFloat v with
    | .ok q => .ok (updKey d key (.num q))
    | .error e => .error (d, e)
  | none => .ok d

/-- One `extracted[key] = int(attr)` step of the GEPA extractor. -/
def gepaIntStep (attr : Option JVal) (key : String) (d : Dict) :
    Except (Dict × PyExc) Dict :=
  match attr with
  | some v =>
    match pyInt v with
    | .ok n => .ok (updKey d key (.num ⟨n, 0⟩))
    | .error e => .error (d, e)
  | none => .ok d

/-- The `str(...)` update for the optimizer name and the optimized-prompt
probing (empty `optimized_prompts` is falsy and skipped). -/
def gepaNameAndPrompt (r : GepaResultObj) (d2 : Dict) : Dict :=
  let d3 :=
    match r.optimizer_name with
    | some v => updKey d2 "optimizer_name" (.str (pyStrOf v))
    | none => d2
  match r.optimized_prompts with
  | some (p :: _) =>
    let text :=
      match p.template with
      | some t => t
      | none =>
        match p.text with
        | some t => t
        | none => p.strRepr
    updKey d3 "optimized_prompt_text" (.str text)
  | _ => d3

/-- The attribute traversal inside `extract_optimization_results`' `try`
(lines 417-446): each step updates the dictionary in place; a raising
conversion carries out the partially updated dictionary. -/
def gepaExtractCore (r : GepaResultObj) (d0 : Dict) : Except (Dict × PyExc) Dict :=
  (gepaScoreStep r.initial_eval_score "initial_score" d0).bind (fun d1 =>
    (gepaScoreStep r.final_eval_score "final_score" d1).bind (fun d2 =>
      let d4 := gepaNameAndPrompt r d2
      match r.iterations with
      | some v => gepaIntStep (some v) "iterations" d4
      | none => gepaIntStep r.num_iterations "iterations" d4))

/-- Python `extract_optimization_results(result)`
(src/backend/gepa_custom/gepa_optimizer.py, lines 399-451): the traversal
is wrapped in `try/except Exception`; a failure logs one warning progress
message and the partially filled dictionary is returned. -/
def extract_optimization_results (r : GepaResultObj) : List String × Dict :=
  match gepaExtractCore r gepaResultsInit with
  | .ok d => ([], d)
  | .error (d, e) => (["Warning: Could not fully extract results: " ++ pyExcStr e], d)

/-- Python `extract_optimization_results(result)` of the renderer copy
(src/renderer/gepa/gepa_optimizer.py, lines 373-429): identical traversal,
plus a summary progress message on success and a logged traceback on
failure. -/
def extract_optimization_results_renderer (r : GepaResultObj) : List String × Dict :=
  match gepaExtractCore r gepaResultsInit with
  | .ok d =>
    let iSc := pyStrOf ((d.lookup "initial_score").getD (.num 0))
    let fSc := pyStrOf ((d.lookup "final_score").getD (.num 0))
    (["Extracted results: initial=" ++ iSc ++ ", final=" ++ fSc], d)
  | .error (d, e) => (extractWarnMsgs e, d)

/-! ## GEPA worker main -/

/-- The `try` body of the GEPA worker's `main` (lines 461-595) after stdin
parsing. -/
def gepaMainCore (config : JVal) (env : GepaEnv) :
    List String × List OptCall × Except PyExc (List (String × JVal)) :=
  match env.mlflowOk with
  | .error _ =>
    ([], [], .error (.importError "MLflow library not found. Please install it with: pip install mlflow>=3.5.0"))
  | .ok _ =>
  -- tracking-URI and experiment setup: no messages, failures swallowed
  match (do
      let td ← pySubscript config "train_dataset"
      Gepa.prepare_dataset td "train_dataset" : Except PyExc _) with
  | .error e => ([], [], .error e)
  | .ok trainData =>
  match (do
      let ip ← pyDictGet config "initial_prompt"
        (.str "Answer the following question: \x7b\x7bquestion\x7d\x7d")
      -- input key: first key of the first item's inputs
      let _inputKey ← (match trainData with
        | [] => pure "question"
        | t0 :: _ => do
          let hasInputs ← pyContains t0 "inputs"
          if hasInputs then do
            let iv ← pySubscript t0 "inputs"
            let ks ← pyKeys iv
            pure (match ks with | [] => "question" | k :: _ => k)
          else pure "question")
      let pn ← pyDictGet config "prompt_name" (.str "gepa_prompt_pid")
      pure (ip, pn) : Except PyExc _) with
  | .error e => ([], [], .error e)
  | .ok (_initialPrompt, promptName) =>
  match register_prompt_with_mlflow promptName env with
  | (msReg, callsReg, .error e) => (msReg, callsReg, .error e)
  | (msReg, callsReg, .ok _) =>
  match pySubscript config "model_config" with
  | .error e => (msReg, callsReg, .error e)
  | .ok _modelConfig =>
  -- predict_fn is defined here but only invoked inside mlflow
  match pyDictGet config "scorer_config"
      (.obj [("scorers", .arr [.obj [("type", .str "correctness")]])]) with
  | .error e => (msReg, callsReg, .error e)
  | .ok scorerConfig =>
  match create_scorers scorerConfig with
  | (msS, .error e) => (msReg ++ msS, callsReg, .error e)
  | (msS, .ok _scorers) =>
  let ms1 := msReg ++ msS
  match create_aggregation_fn scorerConfig with
  | .error e => (ms1, callsReg, .error e)
  | .ok _aggregation =>
  match (do
      let rm ← pyDictGet config "reflection_model" (.str "openai/gpt-4")
      let mmc ← pyDictGet config "max_metric_calls" (.num 300)
      pure (rm, mmc) : Except PyExc _) with
  | .error e => (ms1, callsReg, .error e)
  | .ok (reflectionModel, maxMetricCalls) =>
  match run_gepa_optimization trainData.length maxMetricCalls env with
  | (msG, callsG, .error e) => (ms1 ++ msG, callsReg ++ callsG, .error e)
  | (msG, callsG, .ok robj) =>
  let ms2 := ms1 ++ msG
  let calls := callsReg ++ callsG
  let (msX, extracted) := extract_optimization_results robj
  let ms3 := ms2 ++ msX
  (ms3, calls, .ok
    [("type", .str "success"),
     ("initial_score", (extracted.lookup "initial_score").getD (.num 0)),
     ("final_score", (extracted.lookup "final_score").getD (.num 0)),
     ("optimized_prompt_text", (extracted.lookup "optimized_prompt_text").getD (.str "")),
     ("optimizer_name", (extracted.lookup "optimizer_name").getD (.str "GEPA")),
     ("iterations", (extracted.lookup "iterations").getD (.num 0)),
     ("dataset_size", .num ⟨trainData.length, 0⟩),
     ("reflection_model", reflectionModel),
     ("max_metric_calls", maxMetricCalls)])

/-- Python `main()` of the GEPA worker (lines 458-603), with the same top-level
stdin handling and exception-to-error-message contract as the DSPy worker. -/
def gepaMain (stdin : String) (parsed : Option JVal) (env : GepaEnv) : WorkerRun :=
  workerWrap stdin parsed (fun config => gepaMainCore config env)

/-! ## Concrete environments and request bodies used by witnesses -/

def clientEnvOk : ClientEnv := ⟨.ok (), .ok (), .ok ()⟩

def gepaResultObjOk : GepaResultObj :=
  ⟨some (.num 0.5), some (.num 0.9), some (.str "GEPA"),
   some [⟨some "optimized prompt", none, "prompt"⟩], some (.num 3), none⟩

def gepaEnvOk : GepaEnv := ⟨.ok (), .ok (), .ok (), clientEnvOk, .ok gepaResultObjOk⟩

/-- A GEPA environment in which `import mlflow` raises `ImportError`. -/
def gepaEnvNoMlflow : GepaEnv :=
  ⟨.error (.importError "No module named mlflow"), .ok (), .ok (), clientEnvOk,
   .ok gepaResultObjOk⟩

def compiledOk : CompiledProgram := ⟨.ok []⟩

def dspyEnvOk : DspyEnv :=
  ⟨.ok (), .ok (), true, true, .ok compiledOk, .ok (.num 1), .ok ()⟩

def dspyWorkerCfg : JVal :=
  .obj [("model_config", .obj [("provider", .str "openai")]),
        ("train_dataset", .arr [.obj [("input", .str "q1"), ("output", .str "a1")]]),
        ("metric_config", .obj [("type", .str "exact_match")])]

def gepaWorkerCfg : JVal :=
  .obj [("train_dataset", .arr [.obj [("inputs", .obj [("question", .str "q")]),
                                      ("expectations", .obj [("expected_response", .str "r")])]]),
        ("model_config", .obj [("provider", .str "openai")])]

def mkDspyBody (examples : List JVal) : JVal :=
  .obj [("prompt", .str "Answer:"),
        ("examples", .arr examples),
        ("model", .str "gpt-4o-mini"),
        ("provider", .str "openai"),
        ("apiKey", .str "k")]

def mkGepaBody (examples : List JVal) : JVal :=
  .obj [("prompt", .str "Answer \x7b\x7bquestion\x7d\x7d"),
        ("examples", .arr examples),
        ("providers", .arr [.obj [("provider", .str "openai"),
                                  ("model", .str "gpt-4o-mini"),
                                  ("apiKey", .str "k")]])]

def goodExample : JVal := .obj [("input", .str "i"), ("expected_output", .str "o")]


/-! ## Helper lemmas -/

theorem checkRequired_obj (fields : List String) (fs : List (String × JVal)) :
    checkRequired fields (.obj fs)
      = .ok (fields.find? (fun f => (fs.lookup f).isNone)) := by
  induction fields with
  | nil => rfl
  | cons f rest ih =>
    cases h : fs.lookup f with
    | none =>
      simp [checkRequired, pyContains, h, List.find?, Bind.bind, Except.bind, pure, Except.pure]
    | some v =>
      simp [checkRequired, pyContains, h, List.find?, Bind.bind, Except.bind, ih]

/-- Generic shape facts about `workerWrap`: malformed stdin yields a single
error message and exit 1; exit 0 yields progress messages followed by a
single final success message. -/
theorem workerWrap_malformed
    (stdin : String) (parsed : Option JVal)
    (core : JVal → List String × List OptCall × Except PyExc (List (String × JVal)))
    (h : stdin.isEmpty = true ∨ pyStripIsEmpty stdin = true ∨ parsed.isNone = true) :
    (workerWrap stdin parsed core).msgs.all Msg.isError = true ∧
    (workerWrap stdin parsed core).msgs.length = 1 ∧
    (workerWrap stdin parsed core).exitCode = 1 := by
  by_cases hb : (stdin.isEmpty || pyStripIsEmpty stdin) = true
  · simp [workerWrap, hb, Msg.isError]
  · have hb' : (stdin.isEmpty || pyStripIsEmpty stdin) = false := by
      simpa using hb
    have hp : parsed = none := by
      rcases h with h1 | h2 | h3
      · exact absurd (by simp [h1]) hb
      · exact absurd (by simp [h2]) hb
      · cases parsed with
        | none => rfl
        | some v => simp at h3
    subst hp
    simp [workerWrap, hb', Msg.isError]

theorem truthy_obj_of_ne (fs : List (String × JVal)) (h : fs ≠ []) :
    (JVal.obj fs).truthy = true := by
  cases fs with
  | nil => exact absurd rfl h
  | cons a l => rfl

/-! ## C1 -/

/-- C1: for every POST body that is a JSON object missing at least one of the
endpoint's required top-level fields, both `optimize_dspy` and
`optimize_gepa` answer HTTP 400 with code `INVALID_REQUEST` and
`success = false`, and the external optimizer is never invoked (for the
GEPA route, no external optimizer call occurs at all). -/
theorem missing_required_field_yields_400
    (fs gs : List (String × JVal)) (denv : DspyRouteEnv) (genv : GepaRouteEnv)
    (hd : ∃ f ∈ dspyRequiredFields, (fs.lookup f).isNone = true)
    (hg : ∃ f ∈ gepaRequiredFields, (gs.lookup f).isNone = true) :
    ((optimize_dspy (some (.obj fs)) denv).response.status = 400 ∧
     (optimize_dspy (some (.obj fs)) denv).response.code = some "INVALID_REQUEST" ∧
     (optimize_dspy (some (.obj fs)) denv).response.success = false ∧
     (optimize_dspy (some (.obj fs)) denv).optimizerInvoked = false) ∧
    ((optimize_gepa (some (.obj gs)) genv).response.status = 400 ∧
     (optimize_gepa (some (.obj gs)) genv).response.code = some "INVALID_REQUEST" ∧
     (optimize_gepa (some (.obj gs)) genv).response.success = false ∧
     (optimize_gepa (some (.obj gs)) genv).optimizerInvoked = false ∧
     (optimize_gepa (some (.obj gs)) genv).calls = []) := by
  constructor
  · by_cases hfs : fs = []
    · subst hfs; exact ⟨rfl, rfl, rfl, rfl⟩
    · obtain ⟨f, hfmem, hfnone⟩ := hd
      have hfind : (dspyRequiredFields.find? (fun f => (fs.lookup f).isNone)).isSome := by
        rw [List.find?_isSome]
        exact ⟨f, hfmem, hfnone⟩
      obtain ⟨g, hgf⟩ := Option.isSome_iff_exists.mp hfind
      unfold optimize_dspy
      simp [truthy_obj_of_ne fs hfs, checkRequired_obj, hgf, invalidRequest]
  · by_cases hgs : gs = []
    · subst hgs; exact ⟨rfl, rfl, rfl, rfl, rfl⟩
    · obtain ⟨f, hfmem, hfnone⟩ := hg
      have hfind : (gepaRequiredFields.find? (fun f => (gs.lookup f).isNone)).isSome := by
        rw [List.find?_isSome]
        exact ⟨f, hfmem, hfnone⟩
      obtain ⟨g, hgf⟩ := Option.isSome_iff_exists.mp hfind
      unfold optimize_gepa
      simp [truthy_obj_of_ne gs hgs, checkRequired_obj, hgf, invalidRequest]

/-- C1 witness: concrete bodies missing `examples` (DSPy) and `providers`
(GEPA) produce the 400 `INVALID_REQUEST` envelope without invoking the
optimizer. -/
theorem missing_required_field_yields_400_witness :
    ((optimize_dspy (some (.obj [("prompt", .str "p")])) ⟨.ok (), .ok (.obj [])⟩).response.status = 400 ∧
     (optimize_dspy (some (.obj [("prompt", .str "p")])) ⟨.ok (), .ok (.obj [])⟩).response.code = some "INVALID_REQUEST" ∧
     (optimize_dspy (some (.obj [("prompt", .str "p")])) ⟨.ok (), .ok (.obj [])⟩).response.success = false ∧
     (optimize_dspy (some (.obj [("prompt", .str "p")])) ⟨.ok (), .ok (.obj [])⟩).optimizerInvoked = false) ∧
    ((optimize_gepa (some (.obj [("prompt", .str "p")])) ⟨.ok (), gepaEnvOk⟩).response.status = 400 ∧
     (optimize_gepa (some (.obj [("prompt", .str "p")])) ⟨.ok (), gepaEnvOk⟩).response.code = some "INVALID_REQUEST" ∧
     (optimize_gepa (some (.obj [("prompt", .str "p")])) ⟨.ok (), gepaEnvOk⟩).response.success = false ∧
     (optimize_gepa (some (.obj [("prompt", .str "p")])) ⟨.ok (), gepaEnvOk⟩).optimizerInvoked = false ∧
     (optimize_gepa (some (.obj [("prompt", .str "p")])) ⟨.ok (), gepaEnvOk⟩).calls = []) :=
  missing_required_field_yields_400 _ _ _ _
    ⟨"examples", by decide, by decide⟩ ⟨"examples", by decide, by decide⟩

/-! ## C9 -/

/-- C9: the health endpoint always answers 200 with status `ok`, whatever
the importability of dspy and mlflow, and the `gepa` feature flag always
equals the `mlflow` flag. -/
theorem health_always_ok_and_gepa_tracks_mlflow (d m : Bool) :
    (health_check d m).status = 200 ∧
    (health_check d m).statusField = "ok" ∧
    (health_check d m).features.gepa = (health_check d m).features.mlflow :=
  ⟨rfl, rfl, rfl⟩

/-! ## C10 -/

/-- C10: for a non-empty training set with no validation set, the auto-split
index `int(n * 0.8)` is strictly below `n`, so the dataset-too-small
fallback is unreachable; the training set is the first `int(n * 0.8)`
examples, the validation set the rest, and a singleton dataset leaves the
training set empty. -/
theorem autosplit_fallback_unreachable
    (l : List (String × String)) (e : String × String) (h : l ≠ []) :
    autoSplitIdx l.length < l.length ∧
    (autoSplit l).1 = l.take (autoSplitIdx l.length) ∧
    (autoSplit l).2.1 = l.drop (autoSplitIdx l.length) ∧
    (autoSplit [e]).1 = [] := by
  have h1 : 0 < l.length := List.length_pos.mpr h
  have hlt : autoSplitIdx l.length < l.length := by
    unfold autoSplitIdx
    rw [Nat.div_lt_iff_lt_mul (by norm_num)]
    omega
  refine ⟨hlt, ?_, ?_, ?_⟩
  · unfold autoSplit
    rw [if_pos hlt]
  · unfold autoSplit
    rw [if_pos hlt]
  · simp [autoSplit, autoSplitIdx]

/-- C10 witness: the split at a concrete two-element dataset, and the empty
training set for a singleton. -/
theorem autosplit_fallback_unreachable_witness :
    autoSplitIdx 2 < 2 ∧
    (autoSplit [("a", "b"), ("c", "d")]).1 = [("a", "b")] ∧
    (autoSplit [("a", "b"), ("c", "d")]).2.1 = [("c", "d")] ∧
    (autoSplit [("a", "b")]).1 = [] := by
  have := autosplit_fallback_unreachable [("a", "b"), ("c", "d")] ("a", "b") (by decide)
  exact ⟨this.1, by decide, by decide, this.2.2.2⟩

/-! ## C3 -/

/-- C3: a worker whose standard input is empty, whitespace-only, or not
valid JSON emits exactly one message, of type `error`, and exits 1 — for
both the DSPy and the GEPA worker. -/
theorem malformed_stdin_single_error
    (stdin : String) (parsed : Option JVal) (denv : DspyEnv) (genv : GepaEnv)
    (h : stdin.isEmpty = true ∨ pyStripIsEmpty stdin = true ∨ parsed.isNone = true) :
    ((dspyMain stdin parsed denv).msgs.all Msg.isError = true ∧
     (dspyMain stdin parsed denv).msgs.length = 1 ∧
     (dspyMain stdin parsed denv).exitCode = 1) ∧
    ((gepaMain stdin parsed genv).msgs.all Msg.isError = true ∧
     (gepaMain stdin parsed genv).msgs.length = 1 ∧
     (gepaMain stdin parsed genv).exitCode = 1) :=
  ⟨workerWrap_malformed stdin parsed _ h, workerWrap_malformed stdin parsed _ h⟩

/-- C3 witness: empty standard input on both workers. -/
theorem malformed_stdin_single_error_witness :
    ((dspyMain "" none dspyEnvOk).msgs.all Msg.isError = true ∧
     (dspyMain "" none dspyEnvOk).msgs.length = 1 ∧
     (dspyMain "" none dspyEnvOk).exitCode = 1) ∧
    ((gepaMain "" none gepaEnvOk).msgs.all Msg.isError = true ∧
     (gepaMain "" none gepaEnvOk).msgs.length = 1 ∧
     (gepaMain "" none gepaEnvOk).exitCode = 1) :=
  malformed_stdin_single_error "" none dspyEnvOk gepaEnvOk (Or.inl (by decide))

/-! ## C4 -/

/-- The shape demanded of stdout on a successful run: zero or more progress
messages followed by exactly one success message, which is last. -/
def progressThenOneSuccess (msgs : List Msg) : Prop :=
  ∃ (ps : List String) (payload : List (String × JVal)),
    msgs = ps.map Msg.progress ++ [Msg.success payload]

theorem workerWrap_exit_zero
    (stdin : String) (parsed : Option JVal)
    (core : JVal → List String × List OptCall × Except PyExc (List (String × JVal)))
    (h : (workerWrap stdin parsed core).exitCode = 0) :
    progressThenOneSuccess (workerWrap stdin parsed core).msgs := by
  by_cases hb : (stdin.isEmpty || pyStripIsEmpty stdin) = true
  · simp [workerWrap, hb] at h
  · have hb' : (stdin.isEmpty || pyStripIsEmpty stdin) = false := by
      simpa using hb
    cases parsed with
    | none => simp [workerWrap, hb'] at h
    | some config =>
      rcases hc : core config with ⟨ms, calls, out⟩
      cases out with
      | ok payload =>
        refine ⟨ms, payload, ?_⟩
        simp [workerWrap, hb', hc]
      | error e => simp [workerWrap, hb', hc] at h

/-- C4: whenever a worker exits 0, its stdout is zero or more `progress`
messages followed by exactly one final `success` message — for both the
DSPy and the GEPA worker. -/
theorem success_run_message_order
    (stdin : String) (parsed : Option JVal) (denv : DspyEnv) (genv : GepaEnv) :
    ((dspyMain stdin parsed denv).exitCode = 0 →
      progressThenOneSuccess (dspyMain stdin parsed denv).msgs) ∧
    ((gepaMain stdin parsed genv).exitCode = 0 →
      progressThenOneSuccess (gepaMain stdin parsed genv).msgs) :=
  ⟨workerWrap_exit_zero stdin parsed _, workerWrap_exit_zero stdin parsed _⟩

/-- C4 witness: two concrete fully successful runs. -/
theorem success_run_message_order_witness :
    progressThenOneSuccess (dspyMain "x" (some dspyWorkerCfg) dspyEnvOk).msgs ∧
    progressThenOneSuccess (gepaMain "x" (some gepaWorkerCfg) gepaEnvOk).msgs :=
  ⟨(success_run_message_order "x" (some dspyWorkerCfg) dspyEnvOk gepaEnvOk).1 (by decide),
   (success_run_message_order "x" (some gepaWorkerCfg) dspyEnvOk gepaEnvOk).2 (by decide)⟩

/-! ## More helper lemmas -/

theorem pyDictGet_obj (fs : List (String × JVal)) (k : String) (d : JVal) :
    pyDictGet (.obj fs) k d = .ok ((fs.lookup k).getD d) := by
  cases h : fs.lookup k <;> simp [pyDictGet, h]

theorem checkRequired_all_present (fields : List String) (fs : List (String × JVal))
    (h : ∀ f ∈ fields, (fs.lookup f).isSome = true) :
    checkRequired fields (.obj fs) = .ok none := by
  rw [checkRequired_obj]
  have : fields.find? (fun f => (fs.lookup f).isNone) = none := by
    rw [List.find?_eq_none]
    intro f hf
    have hs := h f hf
    cases hv : fs.lookup f with
    | none => rw [hv] at hs; simp at hs
    | some v => simp [hv]
  rw [this]

theorem lookup_isSome_ne_nil (fs : List (String × JVal)) (k : String)
    (h : (fs.lookup k).isSome = true) : fs ≠ [] := by
  intro hn
  subst hn
  simp [List.lookup] at h

theorem prepare_dataset_empty_dspy (name : String) :
    Dspy.prepare_dataset (.arr []) name = .error (.valueError (name ++ " is empty")) := rfl

theorem prepare_dataset_empty_gepa (name : String) :
    Gepa.prepare_dataset (.arr []) name = .error (.valueError (name ++ " is empty")) := rfl

theorem dspyCore_empty_train (fs : List (String × JVal)) (denv : DspyEnv)
    (h : fs.lookup "train_dataset" = some (.arr [])) :
    (dspyMainCore (.obj fs) denv).2.1 = [] ∧
    ∃ e, (dspyMainCore (.obj fs) denv).2.2 = .error e := by
  obtain ⟨dOk, lm, sf, ad, mo, eo, so⟩ := denv
  cases dOk with
  | error e => exact ⟨rfl, ⟨_, rfl⟩⟩
  | ok u =>
    cases hmc : fs.lookup "model_config" with
    | none => simp [dspyMainCore, pySubscript, hmc]
    | some mc =>
      rcases hs : setup_language_model mc ⟨.ok u, lm, sf, ad, mo, eo, so⟩ with e | u2
      · simp [dspyMainCore, pySubscript, hmc, hs]
      · simp [dspyMainCore, pySubscript, hmc, hs, h, Bind.bind, Except.bind,
              prepare_dataset_empty_dspy]

theorem dspyCore_empty_train_setup_ok (fs : List (String × JVal)) (denv : DspyEnv) (mc : JVal)
    (h : fs.lookup "train_dataset" = some (.arr []))
    (hmc : fs.lookup "model_config" = some mc)
    (hd : denv.dspyOk = .ok ())
    (hs : setup_language_model mc denv = .ok ()) :
    dspyMainCore (.obj fs) denv
      = (["Initializing DSPy optimizer..."], [],
         .error (.valueError "train_dataset is empty")) := by
  obtain ⟨dOk, lm, sf, ad, mo, eo, so⟩ := denv
  simp only at hd
  subst hd
  simp [dspyMainCore, pySubscript, hmc, hs, h, Bind.bind, Except.bind,
        prepare_dataset_empty_dspy]

theorem gepaCore_empty_train (fs : List (String × JVal)) (genv : GepaEnv)
    (h : fs.lookup "train_dataset" = some (.arr [])) :
    (gepaMainCore (.obj fs) genv).2.1 = [] ∧
    ∃ e, (gepaMainCore (.obj fs) genv).2.2 = .error e := by
  obtain ⟨mOk, reg, lo, ce, oo⟩ := genv
  cases mOk with
  | error e => exact ⟨rfl, ⟨_, rfl⟩⟩
  | ok u =>
    simp [gepaMainCore, pySubscript, h, Bind.bind, Except.bind, prepare_dataset_empty_gepa]

theorem gepaCore_empty_train_mlflow_ok (fs : List (String × JVal)) (genv : GepaEnv)
    (h : fs.lookup "train_dataset" = some (.arr [])) (hm : genv.mlflowOk = .ok ()) :
    gepaMainCore (.obj fs) genv = ([], [], .error (.valueError "train_dataset is empty")) := by
  obtain ⟨mOk, reg, lo, ce, oo⟩ := genv
  simp only at hm
  subst hm
  simp [gepaMainCore, pySubscript, h, Bind.bind, Except.bind, prepare_dataset_empty_gepa]

/-! ## C2 -/

/-- C2 counterexample: a GEPA-route request whose example list is present
but empty is not stopped by any emptiness validation — the MLflow prompt
registry and `optimize_prompts` are both called with the empty dataset and
(with a well-behaved environment) the request even returns HTTP 200. -/
theorem empty_examples_reach_registry_counterexample :
    (optimize_gepa (some (mkGepaBody [])) ⟨.ok (), gepaEnvOk⟩).calls
      = [.registerPrompt, .optimizePrompts] ∧
    (optimize_gepa (some (mkGepaBody [])) ⟨.ok (), gepaEnvOk⟩).response
      = ⟨200, true, none, none⟩ := by
  exact ⟨by decide, by decide⟩

/-- C2 (amended): in the two worker entry points an empty `train_dataset`
does fail validation before any external optimizer call — both workers make
no registry / MIPROv2 / optimize_prompts call and exit 1; with non-trivial
stdin the GEPA worker (MLflow importable) emits exactly the validation error
"train_dataset is empty", and the DSPy worker (dspy importable, a
`model_config` whose language-model setup succeeds) emits exactly its
initialization progress line followed by that same validation error.  On the
GEPA route path (`optimize_with_gepa`) no such validation exists (see
counterexample). -/
theorem empty_dataset_fails_validation_in_workers
    (stdin : String) (cfgD cfgG : List (String × JVal)) (denv : DspyEnv) (genv : GepaEnv)
    (hD : cfgD.lookup "train_dataset" = some (.arr []))
    (hG : cfgG.lookup "train_dataset" = some (.arr [])) :
    ((dspyMain stdin (some (.obj cfgD)) denv).calls = [] ∧
     (dspyMain stdin (some (.obj cfgD)) denv).exitCode = 1) ∧
    ((gepaMain stdin (some (.obj cfgG)) genv).calls = [] ∧
     (gepaMain stdin (some (.obj cfgG)) genv).exitCode = 1) ∧
    ((stdin.isEmpty || pyStripIsEmpty stdin) = false → genv.mlflowOk = .ok () →
     (gepaMain stdin (some (.obj cfgG)) genv).msgs
       = [.error "train_dataset is empty" true]) ∧
    ((stdin.isEmpty || pyStripIsEmpty stdin) = false → denv.dspyOk = .ok () →
     ∀ mc, cfgD.lookup "model_config" = some mc →
       setup_language_model mc denv = .ok () →
       (dspyMain stdin (some (.obj cfgD)) denv).msgs
         = [.progress "Initializing DSPy optimizer...",
            .error "train_dataset is empty" true]) := by
  refine ⟨?_, ?_, ?_, ?_⟩
  · by_cases hb : (stdin.isEmpty || pyStripIsEmpty stdin) = true
    · simp [dspyMain, workerWrap, hb]
    · have hb' : (stdin.isEmpty || pyStripIsEmpty stdin) = false := by simpa using hb
      obtain ⟨hcalls, e, herr⟩ := dspyCore_empty_train cfgD denv hD
      rcases hc : dspyMainCore (.obj cfgD) denv with ⟨ms, calls, out⟩
      rw [hc] at hcalls herr
      simp only at hcalls herr
      subst hcalls
      subst herr
      simp [dspyMain, workerWrap, hb', hc]
  · by_cases hb : (stdin.isEmpty || pyStripIsEmpty stdin) = true
    · simp [gepaMain, workerWrap, hb]
    · have hb' : (stdin.isEmpty || pyStripIsEmpty stdin) = false := by simpa using hb
      obtain ⟨hcalls, e, herr⟩ := gepaCore_empty_train cfgG genv hG
      rcases hc : gepaMainCore (.obj cfgG) genv with ⟨ms, calls, out⟩
      rw [hc] at hcalls herr
      simp only at hcalls herr
      subst hcalls
      subst herr
      simp [gepaMain, workerWrap, hb', hc]
  · intro hb hm
    rw [gepaMain, workerWrap, hb]
    simp [gepaCore_empty_train_mlflow_ok cfgG genv hG hm, pyExcStr]
  · intro hb hd mc hmc hs
    rw [dspyMain, workerWrap, hb]
    simp [dspyCore_empty_train_setup_ok cfgD denv mc hD hmc hd hs, pyExcStr]

/-- C2 witness for the amended statement: both workers on concrete configs
with an empty dataset; the DSPy config carries a valid `model_config`
(provider `openai`, environment setup succeeding), so the run genuinely
reaches the dataset-emptiness check and emits the validation error. -/
theorem empty_dataset_fails_validation_in_workers_witness :
    ((dspyMain "x" (some (.obj [("model_config", .obj [("provider", .str "openai")]),
                                ("train_dataset", .arr [])])) dspyEnvOk).calls = [] ∧
     (dspyMain "x" (some (.obj [("model_config", .obj [("provider", .str "openai")]),
                                ("train_dataset", .arr [])])) dspyEnvOk).exitCode = 1) ∧
    ((gepaMain "x" (some (.obj [("train_dataset", .arr [])])) gepaEnvOk).calls = [] ∧
     (gepaMain "x" (some (.obj [("train_dataset", .arr [])])) gepaEnvOk).exitCode = 1) ∧
    (gepaMain "x" (some (.obj [("train_dataset", .arr [])])) gepaEnvOk).msgs
      = [.error "train_dataset is empty" true] ∧
    (dspyMain "x" (some (.obj [("model_config", .obj [("provider", .str "openai")]),
                               ("train_dataset", .arr [])])) dspyEnvOk).msgs
      = [.progress "Initializing DSPy optimizer...",
         .error "train_dataset is empty" true] := by
  have h := empty_dataset_fails_validation_in_workers "x"
    [("model_config", .obj [("provider", .str "openai")]), ("train_dataset", .arr [])]
    [("train_dataset", .arr [])] dspyEnvOk gepaEnvOk rfl rfl
  exact ⟨h.1, h.2.1, h.2.2.1 (by decide) rfl,
         h.2.2.2 (by decide) rfl (.obj [("provider", .str "openai")]) rfl rfl⟩

/-! ## C5 -/

/-- C5 counterexample: with MLflow absent, a well-formed GEPA request is
answered with `OPTIMIZATION_FAILED`, not `DEPENDENCY_MISSING`: the
ImportError raised inside `optimize_with_gepa` is converted to an error
dictionary, which the route maps to the generic failure envelope. -/
theorem mlflow_missing_not_dependency_missing_counterexample :
    (optimize_gepa (some (mkGepaBody [goodExample])) ⟨.ok (), gepaEnvNoMlflow⟩).response.status = 500 ∧
    (optimize_gepa (some (mkGepaBody [goodExample])) ⟨.ok (), gepaEnvNoMlflow⟩).response.code
      = some "OPTIMIZATION_FAILED" := by
  exact ⟨by decide, by decide⟩

/-- C5 (amended): an ImportError raised by the route-level import of the
optimizer module is answered with `DEPENDENCY_MISSING` on both routes; but
absence of MLflow on the GEPA path (its import raising inside
`optimize_with_gepa`) is returned as an error value and answered with
HTTP 500 `OPTIMIZATION_FAILED`. -/
theorem import_error_reporting
    (fs gs gs2 : List (String × JVal)) (denv : DspyRouteEnv) (genv genv2 : GepaRouteEnv)
    (m m2 m3 : String)
    (hdAll : ∀ f ∈ dspyRequiredFields, (fs.lookup f).isSome = true)
    (hdImp : denv.importOutcome = .error (.importError m))
    (hgAll : ∀ f ∈ gepaRequiredFields, (gs.lookup f).isSome = true)
    (hgImp : genv.importOutcome = .error (.importError m2))
    (hg2All : ∀ f ∈ gepaRequiredFields, (gs2.lookup f).isSome = true)
    (hg2Imp : genv2.importOutcome = .ok ())
    (hg2Cfg : ∃ cfg, buildGepaConfig (.obj gs2) = .ok cfg)
    (hg2Ml : genv2.gepaEnv.mlflowOk = .error (.importError m3)) :
    ((optimize_dspy (some (.obj fs)) denv).response
        = ⟨500, false, some "DEPENDENCY_MISSING", some ("DSPy not installed: " ++ m)⟩ ∧
     (optimize_dspy (some (.obj fs)) denv).optimizerInvoked = false) ∧
    ((optimize_gepa (some (.obj gs)) genv).response
        = ⟨500, false, some "DEPENDENCY_MISSING", some ("GEPA dependencies not installed: " ++ m2)⟩ ∧
     (optimize_gepa (some (.obj gs)) genv).optimizerInvoked = false) ∧
    ((optimize_gepa (some (.obj gs2)) genv2).response.status = 500 ∧
     (optimize_gepa (some (.obj gs2)) genv2).response.code = some "OPTIMIZATION_FAILED") := by
  refine ⟨?_, ?_, ?_⟩
  · have hne : fs ≠ [] :=
      lookup_isSome_ne_nil fs "prompt" (hdAll "prompt" (by decide))
    unfold optimize_dspy
    simp [truthy_obj_of_ne fs hne, checkRequired_all_present dspyRequiredFields fs hdAll,
          hdImp, dspyExcResponse]
  · have hne : gs ≠ [] :=
      lookup_isSome_ne_nil gs "prompt" (hgAll "prompt" (by decide))
    unfold optimize_gepa
    simp [truthy_obj_of_ne gs hne, checkRequired_all_present gepaRequiredFields gs hgAll,
          hgImp, gepaExcResponse]
  · have hne : gs2 ≠ [] :=
      lookup_isSome_ne_nil gs2 "prompt" (hg2All "prompt" (by decide))
    obtain ⟨cfg, hcfg⟩ := hg2Cfg
    unfold optimize_gepa
    simp [truthy_obj_of_ne gs2 hne, checkRequired_all_present gepaRequiredFields gs2 hg2All,
          hg2Imp, hcfg, optimize_with_gepa, hg2Ml, gepaErrorDict, resultToResponse,
          pySubscript, pyDictGet, Bind.bind, Except.bind, BEq.beq, JVal.beq, pyStrOf,
          List.lookup, pure, Except.pure]

/-- C5 witness: concrete requests exercising all three branches of the
amended statement. -/
theorem import_error_reporting_witness :
    ((optimize_dspy (some (mkDspyBody [goodExample]))
        ⟨.error (.importError "no dspy"), .ok (.obj [])⟩).response
        = ⟨500, false, some "DEPENDENCY_MISSING", some ("DSPy not installed: " ++ "no dspy")⟩ ∧
     (optimize_dspy (some (mkDspyBody [goodExample]))
        ⟨.error (.importError "no dspy"), .ok (.obj [])⟩).optimizerInvoked = false) ∧
    ((optimize_gepa (some (mkGepaBody [goodExample]))
        ⟨.error (.importError "no gepa"), gepaEnvOk⟩).response
        = ⟨500, false, some "DEPENDENCY_MISSING", some ("GEPA dependencies not installed: " ++ "no gepa")⟩ ∧
     (optimize_gepa (some (mkGepaBody [goodExample]))
        ⟨.error (.importError "no gepa"), gepaEnvOk⟩).optimizerInvoked = false) ∧
    ((optimize_gepa (some (mkGepaBody [goodExample])) ⟨.ok (), gepaEnvNoMlflow⟩).response.status = 500 ∧
     (optimize_gepa (some (mkGepaBody [goodExample])) ⟨.ok (), gepaEnvNoMlflow⟩).response.code
        = some "OPTIMIZATION_FAILED") := by
  have h := import_error_reporting
    [("prompt", .str "Answer:"),
     ("examples", .arr [goodExample]),
     ("model", .str "gpt-4o-mini"),
     ("provider", .str "openai"),
     ("apiKey", .str "k")]
    [("prompt", .str "Answer \x7b\x7bquestion\x7d\x7d"),
     ("examples", .arr [goodExample]),
     ("providers", .arr [.obj [("provider", .str "openai"),
                               ("model", .str "gpt-4o-mini"),
                               ("apiKey", .str "k")]])]
    [("prompt", .str "Answer \x7b\x7bquestion\x7d\x7d"),
     ("examples", .arr [goodExample]),
     ("providers", .arr [.obj [("provider", .str "openai"),
                               ("model", .str "gpt-4o-mini"),
                               ("apiKey", .str "k")]])]
    ⟨.error (.importError "no dspy"), .ok (.obj [])⟩
    ⟨.error (.importError "no gepa"), gepaEnvOk⟩
    ⟨.ok (), gepaEnvNoMlflow⟩
    "no dspy" "no gepa" "No module named mlflow"
    (by decide) rfl (by decide) rfl (by decide) rfl ⟨_, rfl⟩ rfl
  exact h

/-! ## C6 -/

/-- A DSPy worker config whose optimizer name is the given string, with the
other fields well-formed. -/
def mkDspyWorkerCfg (optimizerName : String) : JVal :=
  .obj [("model_config", .obj [("provider", .str "openai")]),
        ("train_dataset", .arr [.obj [("input", .str "q1"), ("output", .str "a1")]]),
        ("metric_config", .obj [("type", .str "exact_match")]),
        ("optimizer", .str optimizerName)]

/-- C6 counterexample: `get_model_client` raises no error for a provider
outside every supported set — it returns a LiteLLM routing descriptor (a
client config), where the claim demands a descriptive exception. -/
theorem unknown_provider_returns_client_counterexample :
    get_model_client (.obj [("provider", .str "no_such_provider_xyz")]) clientEnvOk
      = .ok (.litellm (.str "no_such_provider_xyz") .null (.str "") .null) := rfl

/-- C6 (amended): the DSPy-side selector `setup_language_model` raises a
`ValueError` naming the provider for any provider other than `'openai'` /
`'anthropic'`; the GEPA-side selector `get_model_client` never raises for an
unknown provider, returning a LiteLLM descriptor instead; and the DSPy
worker raises a `ValueError` naming any optimizer other than
`'MIPRO'`/`'MIPROv2'` without having made any external optimizer call. -/
theorem unknown_provider_and_optimizer_errors
    (p t : String) (fs : List (String × JVal)) (denv : DspyEnv) (cenv : ClientEnv)
    (hp : p ∉ (["openai", "anthropic", "google", "gemini"] : List String))
    (hfs : fs.lookup "provider" = some (.str p))
    (ht : t ∉ (["MIPRO", "MIPROv2"] : List String))
    (hdOk : denv.dspyOk = .ok ()) (hlm : denv.lmOutcome = .ok ()) :
    setup_language_model (.obj fs) denv
      = .error (.valueError ("Unsupported provider: " ++ p ++ ". Use 'openai' or 'anthropic'.")) ∧
    (∃ m k b, get_model_client (.obj fs) cenv = .ok (.litellm (.str p) m k b)) ∧
    ((dspyMainCore (mkDspyWorkerCfg t) denv).2.1 = [] ∧
     (dspyMainCore (mkDspyWorkerCfg t) denv).2.2
       = .error (.valueError ("Unknown optimizer: " ++ t ++
           ". Use 'MIPROv2' for instruction optimization."))) := by
  simp only [List.mem_cons, List.mem_singleton, not_or] at hp ht
  obtain ⟨hp1, hp2, hp3, hp4, -⟩ := hp
  obtain ⟨ht1, ht2, -⟩ := ht
  have hb1 : (t == "MIPRO") = false := beq_eq_false_iff_ne.mpr ht1
  have hb2 : (t == "MIPROv2") = false := beq_eq_false_iff_ne.mpr ht2
  refine ⟨?_, ?_, ?_⟩
  · simp [setup_language_model, pyDictGet_obj, hfs, Bind.bind, Except.bind,
          BEq.beq, JVal.beq, hp1, hp2, pyStrOf]
  · refine ⟨(fs.lookup "model").getD .null, (fs.lookup "api_key").getD (.str ""),
           (fs.lookup "api_base").getD .null, ?_⟩
    simp [get_model_client, pyDictGet_obj, hfs, Bind.bind, Except.bind, pure, Except.pure,
          BEq.beq, JVal.beq, hp1, hp2, hp3, hp4]
  · obtain ⟨dOk, lm, sf, ad, mo, eo, so⟩ := denv
    simp only at hdOk hlm
    subst hdOk
    subst hlm
    constructor <;>
      simp [dspyMainCore, mkDspyWorkerCfg, setup_language_model, pySubscript, pyDictGet,
            List.lookup, Bind.bind, Except.bind, pure, Except.pure, Dspy.prepare_dataset,
            pyIter, pyLen, pyContains, JVal.truthy, autoSplit, autoSplitIdx, create_metric,
            create_dspy_program, BEq.beq, JVal.beq, hb1, hb2, ht1, ht2, pyStrOf,
            List.mapM.loop, List.enum, List.enumFrom]

/-- C6 witness: the concrete provider `'ollama'` (outside both native sets)
and the concrete optimizer name `'BootstrapFewShot'`. -/
theorem unknown_provider_and_optimizer_errors_witness :
    setup_language_model (.obj [("provider", .str "ollama")]) dspyEnvOk
      = .error (.valueError ("Unsupported provider: " ++ "ollama" ++ ". Use 'openai' or 'anthropic'.")) ∧
    (∃ m k b, get_model_client (.obj [("provider", .str "ollama")]) clientEnvOk
      = .ok (.litellm (.str "ollama") m k b)) ∧
    ((dspyMainCore (mkDspyWorkerCfg "BootstrapFewShot") dspyEnvOk).2.1 = [] ∧
     (dspyMainCore (mkDspyWorkerCfg "BootstrapFewShot") dspyEnvOk).2.2
       = .error (.valueError ("Unknown optimizer: " ++ "BootstrapFewShot" ++
           ". Use 'MIPROv2' for instruction optimization."))) :=
  unknown_provider_and_optimizer_errors "ollama" "BootstrapFewShot"
    [("provider", .str "ollama")] dspyEnvOk clientEnvOk
    (by decide) rfl (by decide) rfl rfl

/-! ## C7 -/

/-- Well-formed example objects built from input/expected-output pairs. -/
def mkExamples (ps : List (String × String)) : List JVal :=
  ps.map (fun p => .obj [("input", .str p.1), ("expected_output", .str p.2)])

theorem mapM_dspyExampleItem_bad (ps : List (String × String))
    (bfs : List (String × JVal)) (rest : List JVal) (iv : JVal) (acc : List JVal)
    (h1 : bfs.lookup "input" = some iv) (h2 : bfs.lookup "expected_output" = none) :
    List.mapM.loop dspyExampleItem (mkExamples ps ++ .obj bfs :: rest) acc
      = .error (.keyError "expected_output") := by
  induction ps generalizing acc with
  | nil =>
    simp [mkExamples, List.mapM.loop, dspyExampleItem, pySubscript, h1, h2,
          Bind.bind, Except.bind]
  | cons q qs ih =>
    simp [mkExamples, List.mapM.loop, dspyExampleItem, pySubscript, List.lookup,
          Bind.bind, Except.bind, pure, Except.pure] at ih ⊢
    exact ih _

theorem mapM_gepaExampleItem_bad (ps : List (String × String))
    (bfs : List (String × JVal)) (rest : List JVal) (iv : JVal) (acc : List JVal)
    (h1 : bfs.lookup "input" = some iv) (h2 : bfs.lookup "expected_output" = none) :
    List.mapM.loop gepaExampleItem (mkExamples ps ++ .obj bfs :: rest) acc
      = .error (.keyError "expected_output") := by
  induction ps generalizing acc with
  | nil =>
    simp [mkExamples, List.mapM.loop, gepaExampleItem, pySubscript, h1, h2,
          Bind.bind, Except.bind]
  | cons q qs ih =>
    simp [mkExamples, List.mapM.loop, gepaExampleItem, pySubscript, List.lookup,
          Bind.bind, Except.bind, pure, Except.pure] at ih ⊢
    exact ih _

/-- C7 counterexample: a GEPA request whose single example lacks
`expected_output` is not rejected as an invalid request: the reshaping
comprehension raises `KeyError`, which the catch-all handler converts to
HTTP 500 with code `INTERNAL_ERROR`. -/
theorem malformed_example_internal_error_counterexample :
    (optimize_gepa (some (mkGepaBody [.obj [("input", .str "x")]])) ⟨.ok (), gepaEnvOk⟩).response
      = ⟨500, false, some "INTERNAL_ERROR", some "'expected_output'"⟩ := by decide

/-- C7 (amended): on both routes, an example element that has `input` but
lacks `expected_output` makes the reshaping comprehension raise
`KeyError('expected_output')`, answered as HTTP 500 `INTERNAL_ERROR` (not
`INVALID_REQUEST`), before any optimizer call; only the DSPy worker's
`prepare_dataset` treats a malformed item as a validation error naming the
missing fields. -/
theorem malformed_example_keyerror_internal
    (ps ps2 : List (String × String))
    (bfs bfs2 ifs : List (String × JVal)) (rest rest2 rest3 : List JVal)
    (iv iv2 : JVal) (name : String)
    (denv : DspyRouteEnv) (genv : GepaRouteEnv)
    (h1 : bfs.lookup "input" = some iv) (h2 : bfs.lookup "expected_output" = none)
    (h3 : bfs2.lookup "input" = some iv2) (h4 : bfs2.lookup "expected_output" = none)
    (hdi : denv.importOutcome = .ok ()) (hgi : genv.importOutcome = .ok ())
    (hw : ifs.lookup "output" = none) :
    ((optimize_dspy (some (mkDspyBody (mkExamples ps ++ .obj bfs :: rest))) denv).response
        = ⟨500, false, some "INTERNAL_ERROR", some "'expected_output'"⟩ ∧
     (optimize_dspy (some (mkDspyBody (mkExamples ps ++ .obj bfs :: rest))) denv).optimizerInvoked
        = false) ∧
    ((optimize_gepa (some (mkGepaBody (mkExamples ps2 ++ .obj bfs2 :: rest2))) genv).response
        = ⟨500, false, some "INTERNAL_ERROR", some "'expected_output'"⟩ ∧
     (optimize_gepa (some (mkGepaBody (mkExamples ps2 ++ .obj bfs2 :: rest2))) genv).calls = []) ∧
    (Dspy.prepare_dataset (.arr (.obj ifs :: rest3)) name
        = .error (.valueError (name ++ "[0] missing 'input' or 'output' field"))) := by
  refine ⟨?_, ?_, ?_⟩
  · have hbad := mapM_dspyExampleItem_bad ps bfs rest iv [] h1 h2
    simp [optimize_dspy, mkDspyBody, JVal.truthy, checkRequired, pyContains, List.lookup,
          hdi, buildDspyConfig, pySubscript, pyDictGet, pyIter, Bind.bind, Except.bind,
          pure, Except.pure, hbad, dspyExcResponse, pyExcStr]
  · have hbad := mapM_gepaExampleItem_bad ps2 bfs2 rest2 iv2 [] h3 h4
    simp [optimize_gepa, mkGepaBody, JVal.truthy, checkRequired, pyContains, List.lookup,
          hgi, buildGepaConfig, pySubscript, pyDictGet, pyIter, Bind.bind, Except.bind,
          pure, Except.pure, hbad, gepaExcResponse, pyExcStr]
  · simp [Dspy.prepare_dataset, JVal.truthy, pyLen, pyIter, pyContains, hw,
          List.enum, List.enumFrom, List.mapM.loop, Bind.bind, Except.bind,
          pure, Except.pure, String.append_assoc]
    congr 1

/-- C7 witness for the amended statement, at one well-formed example followed
by one example missing `expected_output`. -/
theorem malformed_example_keyerror_internal_witness :
    ((optimize_dspy (some (mkDspyBody (mkExamples [("a", "b")] ++ .obj [("input", .str "x")] :: [])))
        ⟨.ok (), .ok (.obj [])⟩).response
        = ⟨500, false, some "INTERNAL_ERROR", some "'expected_output'"⟩ ∧
     (optimize_dspy (some (mkDspyBody (mkExamples [("a", "b")] ++ .obj [("input", .str "x")] :: [])))
        ⟨.ok (), .ok (.obj [])⟩).optimizerInvoked = false) ∧
    ((optimize_gepa (some (mkGepaBody (mkExamples [("a", "b")] ++ .obj [("input", .str "x")] :: [])))
        ⟨.ok (), gepaEnvOk⟩).response
        = ⟨500, false, some "INTERNAL_ERROR", some "'expected_output'"⟩ ∧
     (optimize_gepa (some (mkGepaBody (mkExamples [("a", "b")] ++ .obj [("input", .str "x")] :: [])))
        ⟨.ok (), gepaEnvOk⟩).calls = []) ∧
    (Dspy.prepare_dataset (.arr (.obj [("input", .str "x")] :: [])) "train_dataset"
        = .error (.valueError ("train_dataset" ++ "[0] missing 'input' or 'output' field"))) :=
  malformed_example_keyerror_internal [("a", "b")] [("a", "b")]
    [("input", .str "x")] [("input", .str "x")] [("input", .str "x")] [] [] []
    (.str "x") (.str "x") "train_dataset"
    ⟨.ok (), .ok (.obj [])⟩ ⟨.ok (), gepaEnvOk⟩
    rfl rfl rfl rfl rfl rfl rfl

/-! ## C8 -/

/-- The dictionary carried out of a traversal step, whether it completed or
raised (the `except` handler returns the partially updated dictionary). -/
def carriedDict : Except (Dict × PyExc) Dict → Dict
  | .ok d => d
  | .error (d, _) => d

theorem hasKey_updKey (d : Dict) (k : String) (v : JVal) (k' : String) :
    hasKey (updKey d k v) k' = (hasKey d k' || k' == k) := by
  induction d with
  | nil =>
    simp only [updKey, hasKey, List.lookup]
    cases hk : k' == k <;> simp
  | cons a rest ih =>
    obtain ⟨k1, v1⟩ := a
    simp only [updKey]
    by_cases h : (k1 == k) = true
    · rw [if_pos h]
      have hk : k1 = k := eq_of_beq h
      subst hk
      simp only [hasKey, List.lookup]
      cases hk2 : k' == k1 <;> simp
    · rw [if_neg h]
      simp only [hasKey, List.lookup]
      cases hk2 : k' == k1
      · simp only [hasKey] at ih
        simp [ih]
      · simp

theorem hasKey_updKeyWith (d : Dict) (k : String) (f : JVal → JVal) (k' : String) :
    hasKey (updKeyWith d k f) k' = hasKey d k' := by
  induction d with
  | nil => rfl
  | cons a rest ih =>
    obtain ⟨k1, v1⟩ := a
    simp only [updKeyWith]
    by_cases h : (k1 == k) = true
    · have hk : k1 = k := eq_of_beq h
      subst hk
      rw [if_pos h]
      simp only [hasKey, List.lookup]
      cases hk2 : k' == k1 <;> simp
    · rw [if_neg h]
      simp only [hasKey, List.lookup]
      cases hk2 : k' == k1
      · simp only [hasKey] at ih
        simp [ih]
      · simp

theorem predFormattedUpdate_keys (adapterOk : Bool) (p : PredictorObj) (res : Dict)
    (k : String) :
    hasKey (predFormattedUpdate adapterOk p res) k = hasKey res k := by
  unfold predFormattedUpdate
  by_cases h : (adapterOk && p.signature.isSome) = true
  · rw [if_pos h]
    cases p.formatOutcome with
    | raises => rfl
    | value s =>
      by_cases he : s.isEmpty = true
      · simp [he]
      · simp [he, hasKey_updKeyWith]
  · rw [if_neg h]

theorem predInstrUpdate_keys (p : PredictorObj) (res : Dict) (k : String) :
    hasKey (predInstrUpdate p res).1 k = hasKey res k := by
  unfold predInstrUpdate
  cases predInstruction p with
  | none => rfl
  | some s =>
    by_cases he : (pyStrip s).data = []
    · simp [he]
    · simp [he, hasKey_updKeyWith]

/-- The dictionary carried out of the demo step, completed or raised. -/
def demoCarried : Except (Dict × PyExc) (Dict × Dict) → Dict
  | .ok (d, _) => d
  | .error (d, _) => d

theorem predDemoStep_keys (p : PredictorObj) (res : Dict) (k : String) :
    hasKey (demoCarried (predDemoStep p res)) k = hasKey res k := by
  unfold predDemoStep
  cases hd : p.demos with
  | none => rfl
  | some dv =>
    cases dv with
    | unsized => rfl
    | objs ds =>
      by_cases he : ds.isEmpty = true
      · simp [he, demoCarried]
      · simp [he, demoCarried, hasKey_updKeyWith]

theorem processPredictor_keys (adapterOk : Bool) (p : PredictorObj) (res : Dict) (k : String) :
    hasKey (carriedDict (processPredictor adapterOk p res)) k = hasKey res k := by
  rcases hpi : predInstrUpdate p (predFormattedUpdate adapterOk p res) with ⟨res2, entry⟩
  have h2 : hasKey res2 k = hasKey res k := by
    have h := predInstrUpdate_keys p (predFormattedUpdate adapterOk p res) k
    rw [hpi] at h
    simp only at h
    rw [h, predFormattedUpdate_keys]
  have h3 := predDemoStep_keys p res2 k
  unfold processPredictor
  simp only [hpi]
  rcases hds : predDemoStep p res2 with x | y
  · obtain ⟨d, e⟩ := x
    rw [hds] at h3
    simp only [demoCarried] at h3
    simp only [hds, carriedDict]
    rw [h3, h2]
  · obtain ⟨res3, dentry⟩ := y
    rw [hds] at h3
    simp only [demoCarried] at h3
    simp only [hds, carriedDict]
    rw [hasKey_updKeyWith, h3, h2]

theorem processPredictors_keys (adapterOk : Bool) (ps : List PredictorObj)
    (res : Dict) (k : String) :
    hasKey (carriedDict (processPredictors adapterOk ps res)) k = hasKey res k := by
  induction ps generalizing res with
  | nil => rfl
  | cons p ps ih =>
    unfold processPredictors
    cases hp : processPredictor adapterOk p res with
    | ok d' =>
      have hstep := processPredictor_keys adapterOk p res k
      rw [hp] at hstep
      simp only [carriedDict] at hstep
      simpa [hstep] using ih d'
    | error x =>
      have hstep := processPredictor_keys adapterOk p res k
      rw [hp] at hstep
      obtain ⟨d', e⟩ := x
      simpa [carriedDict] using hstep

theorem dspyInstructionFallback_keys (d : Dict) (k : String) :
    hasKey (dspyInstructionFallback d) k = hasKey d k := by
  have hfold : ∀ (l : List (String × JVal)) (d0 : Dict),
      hasKey (l.foldl (fun acc kv =>
        updKeyWith acc "instructions" (fun v => objInsert v kv.1 (.str (pyStrOf kv.2)))) d0) k
        = hasKey d0 k := by
    intro l
    induction l with
    | nil => intro d0; rfl
    | cons a l ih =>
      intro d0
      simp [List.foldl, ih, hasKey_updKeyWith]
  unfold dspyInstructionFallback
  cases hi : d.lookup "instructions" with
  | none => rfl
  | some instrs =>
    cases hf : d.lookup "formatted_prompts" with
    | none => rfl
    | some fp =>
      cases fp with
      | null => rfl
      | bool b => rfl
      | num n => rfl
      | str s => rfl
      | arr xs => rfl
      | obj fps =>
        by_cases hc : (!instrs.truthy && !fps.isEmpty) = true
        · simp [hc, hfold]
        · simp [hc]

theorem gepaScoreStep_keys (attr : Option JVal) (key : String) (d : Dict) (k : String)
    (h : hasKey d k = true) :
    hasKey (carriedDict (gepaScoreStep attr key d)) k = true := by
  unfold gepaScoreStep
  cases attr with
  | none => simpa [carriedDict] using h
  | some v =>
    cases hf : pyFloat v with
    | ok q => simp [hf, carriedDict, hasKey_updKey, h]
    | error e => simp [hf, carriedDict, h]

theorem gepaIntStep_keys (attr : Option JVal) (key : String) (d : Dict) (k : String)
    (h : hasKey d k = true) :
    hasKey (carriedDict (gepaIntStep attr key d)) k = true := by
  unfold gepaIntStep
  cases attr with
  | none => simpa [carriedDict] using h
  | some v =>
    cases hf : pyInt v with
    | ok n => simp [hf, carriedDict, hasKey_updKey, h]
    | error e => simp [hf, carriedDict, h]

theorem gepaNameAndPrompt_keys (r : GepaResultObj) (d : Dict) (k : String)
    (h : hasKey d k = true) :
    hasKey (gepaNameAndPrompt r d) k = true := by
  unfold gepaNameAndPrompt
  repeat' split <;> simp_all [hasKey_updKey]

theorem gepaExtractCore_keys (r : GepaResultObj) (d0 : Dict) (k : String)
    (h : hasKey d0 k = true) :
    hasKey (carriedDict (gepaExtractCore r d0)) k = true := by
  unfold gepaExtractCore
  cases h1 : gepaScoreStep r.initial_eval_score "initial_score" d0 with
  | error x =>
    have hs := gepaScoreStep_keys r.initial_eval_score "initial_score" d0 k h
    rw [h1] at hs
    simpa [Except.bind] using hs
  | ok d1 =>
    have hd1 : hasKey d1 k = true := by
      have hs := gepaScoreStep_keys r.initial_eval_score "initial_score" d0 k h
      rw [h1] at hs
      exact hs
    simp only [Except.bind]
    cases h2 : gepaScoreStep r.final_eval_score "final_score" d1 with
    | error x =>
      have hs := gepaScoreStep_keys r.final_eval_score "final_score" d1 k hd1
      rw [h2] at hs
      simpa [Except.bind] using hs
    | ok d2 =>
      have hd2 : hasKey d2 k = true := by
        have hs := gepaScoreStep_keys r.final_eval_score "final_score" d1 k hd1
        rw [h2] at hs
        exact hs
      have hd4 : hasKey (gepaNameAndPrompt r d2) k = true :=
        gepaNameAndPrompt_keys r d2 k hd2
      simp only [Except.bind]
      cases hit : r.iterations with
      | some v =>
        simpa using gepaIntStep_keys (some v) "iterations" (gepaNameAndPrompt r d2) k hd4
      | none =>
        simpa using gepaIntStep_keys r.num_iterations "iterations" (gepaNameAndPrompt r d2) k hd4

def dspyDefaultKeys : List String :=
  ["instructions", "demos", "predictors", "formatted_prompts"]

def gepaDefaultKeys : List String :=
  ["initial_score", "final_score", "optimized_prompt_text", "optimizer_name", "iterations"]

def hasKeys (d : Dict) (ks : List String) : Bool := ks.all (fun k => hasKey d k)

/-- C8: for every compiled program / result object, of any attribute shape,
all three result extractors return (rather than raise — their return type
embeds the catch-all handler) a dictionary still containing every default
key, whether the traversal completed or failed mid-way. -/
theorem extractors_keep_default_keys
    (adapterOk : Bool) (cp : CompiledProgram) (r r2 : GepaResultObj) :
    hasKeys (extract_optimized_results adapterOk cp).2 dspyDefaultKeys = true ∧
    hasKeys (extract_optimization_results r).2 gepaDefaultKeys = true ∧
    hasKeys (extract_optimization_results_renderer r2).2 gepaDefaultKeys = true := by
  have hgepa : ∀ (r' : GepaResultObj),
      hasKeys (carriedDict (gepaExtractCore r' gepaResultsInit)) gepaDefaultKeys = true := by
    intro r'
    simp only [hasKeys, gepaDefaultKeys, List.all, Bool.and_eq_true]
    refine ⟨?_, ?_, ?_, ?_, ?_, trivial⟩ <;> exact gepaExtractCore_keys r' gepaResultsInit _ rfl
  refine ⟨?_, ?_, ?_⟩
  · cases hnp : cp.namedPredictors with
    | error e =>
      simp only [extract_optimized_results, hnp]
      decide
    | ok ps =>
      cases hp : processPredictors adapterOk ps dspyResultsInit with
      | error x =>
        obtain ⟨d, e⟩ := x
        have hth : ∀ k', hasKey d k' = hasKey dspyResultsInit k' := by
          intro k'
          have hk := processPredictors_keys adapterOk ps dspyResultsInit k'
          rw [hp] at hk
          simpa [carriedDict] using hk
        simp only [extract_optimized_results, hnp, hp]
        simp only [hasKeys, dspyDefaultKeys, List.all, Bool.and_eq_true]
        refine ⟨?_, ?_, ?_, ?_, trivial⟩ <;> (rw [hth]; decide)
      | ok d =>
        have hth : ∀ k', hasKey d k' = hasKey dspyResultsInit k' := by
          intro k'
          have hk := processPredictors_keys adapterOk ps dspyResultsInit k'
          rw [hp] at hk
          simpa [carriedDict] using hk
        simp only [extract_optimized_results, hnp, hp]
        simp only [hasKeys, dspyDefaultKeys, List.all, Bool.and_eq_true]
        refine ⟨?_, ?_, ?_, ?_, trivial⟩ <;> (rw [dspyInstructionFallback_keys, hth]; decide)
  · cases hg : gepaExtractCore r gepaResultsInit with
    | ok d =>
      have hh := hgepa r
      rw [hg] at hh
      simp only [extract_optimization_results, hg]
      simpa [carriedDict] using hh
    | error x =>
      obtain ⟨d, e⟩ := x
      have hh := hgepa r
      rw [hg] at hh
      simp only [extract_optimization_results, hg]
      simpa [carriedDict] using hh
  · cases hg : gepaExtractCore r2 gepaResultsInit with
    | ok d =>
      have hh := hgepa r2
      rw [hg] at hh
      simp only [extract_optimization_results_renderer, hg]
      simpa [carriedDict] using hh
    | error x =>
      obtain ⟨d, e⟩ := x
      have hh := hgepa r2
      rw [hg] at hh
      simp only [extract_optimization_results_renderer, hg]
      simpa [carriedDict] using hh
